import Mathlib

/-!
Verification of the CPU6502_ts repository (a 16-bit-register 6502-style
virtual processor in `CPU.py` plus a two-pass assembler and run driver in
`assembler.py`) against its natural-language specification.

The Python source is shallowly embedded: the processor state is a record of
naturals (registers, the packed status byte, the cycle counter) together with
the 65536-cell memory modelled as a total function `Nat → Nat` whose reads go
through a bounds check (Python list indexing raises `IndexError` past the
end); machine integers follow Python semantics (arbitrary precision, with
`& 0xFFFF` rendered as masking and `%`/`>>` on possibly-negative values
rendered through `Int.emod`/`Int.fdiv`).  Fallible code (Python `raise`)
returns `Except String`.
-/

/-! ## Python integer primitives -/

/-- Python `x & 0xFFFF` for a possibly negative `x` (two's complement mask,
always the nonnegative residue). -/
def pyMask16 (x : Int) : Nat := (x.emod 65536).toNat

/-- Python `x & 0xFF` for a possibly negative `x`. -/
def pyMask8 (x : Int) : Nat := (x.emod 256).toNat

/-- Python `(x >> 8) & 0xFF` for a possibly negative `x`; `>>` on Python ints
is an arithmetic (floor) shift. -/
def pyShr8Mask8 (x : Int) : Nat := ((x.fdiv 256).emod 256).toNat

/-! ## The packed status byte

`CPU.py` stores the flags packed in `self._P` and accesses them through
property getters/setters: `get = (P & mask) != 0`,
`set = (P | mask) if v else (P & ~mask)`.  For naturals, Python's `p & ~mask`
equals `p - (p & mask)` (the bits of `p & mask` are a subset of the bits of
`p`, so the subtraction is borrow-free and clears exactly those bits); this
keeps the definition computable while `sub_land_eq_ldiff` below recovers the
bitwise reading. -/

/-- Flag read `(P & mask) != 0`. -/
def getFlag (p mask : Nat) : Bool := p &&& mask != 0

/-- Flag write `(P | mask) if v else (P & ~mask)`. -/
def setFlag (p mask : Nat) (v : Bool) : Nat :=
  if v then p ||| mask else p - (p &&& mask)

def CARRY : Nat := 0x01
def ZERO : Nat := 0x02
def IRQ : Nat := 0x04
def DECIMAL : Nat := 0x08
def BRK : Nat := 0x10
def OVERFLOW : Nat := 0x40
def NEGATIVE : Nat := 0x80

/-! ## Processor state (`CPU6502.__init__`) -/

/-- The architectural state of `CPU6502`: registers, stack pointer, program
counter, packed status byte, memory and cycle counter.  Memory is the
65536-cell list, as a total function; reads go through `readMem`. -/
structure CPU6502 where
  a : Nat
  x : Nat
  y : Nat
  sp : Nat
  pc : Nat
  p : Nat
  mem : Nat → Nat
  cycles : Nat

/-- The initial processor state (`__init__`): A = X = Y = 0, SP = 0xFD,
PC = 0, P = 0b00100000, zeroed memory, cycle count 0. -/
def initCPU : CPU6502 :=
  { a := 0, x := 0, y := 0, sp := 0xFD, pc := 0, p := 0b00100000,
    mem := fun _ => 0, cycles := 0 }

/-- Python `self.memory[addr]` on the 65536-cell list: `IndexError` past the
end (negative indices cannot arise, all addresses are naturals). -/
def readMem (mem : Nat → Nat) (addr : Nat) : Except String Nat :=
  if addr < 65536 then .ok (mem addr) else .error "list index out of range"

/-- Python `self.memory[addr] = v`. -/
def writeMem (mem : Nat → Nat) (addr v : Nat) : Except String (Nat → Nat) :=
  if addr < 65536 then .ok (fun i => if i = addr then v else mem i)
  else .error "list assignment index out of range"

/-! ## Instruction semantics (`CPU6502` methods)

Each method of the Python class becomes a function on `CPU6502`.  Methods
that index memory at a caller-supplied address return the partially mutated
state together with an `Except` outcome, mirroring where a Python exception
would leave the object. -/

/-- `update_zn_flags`. -/
def update_zn_flags (c : CPU6502) (val : Nat) : CPU6502 :=
  let c := { c with p := setFlag c.p ZERO (val &&& 0xFFFF == 0) }
  { c with p := setFlag c.p NEGATIVE (val &&& 0x8000 != 0) }

/-- `LDA`. -/
def LDA (c : CPU6502) (v : Nat) : CPU6502 :=
  let c := { c with a := v &&& 0xFFFF }
  let c := update_zn_flags c c.a
  { c with cycles := c.cycles + 2 }

/-- `LDX`. -/
def LDX (c : CPU6502) (v : Nat) : CPU6502 :=
  let c := { c with x := v &&& 0xFFFF }
  let c := update_zn_flags c c.x
  { c with cycles := c.cycles + 2 }

/-- `LDY`. -/
def LDY (c : CPU6502) (v : Nat) : CPU6502 :=
  let c := { c with y := v &&& 0xFFFF }
  let c := update_zn_flags c c.y
  { c with cycles := c.cycles + 2 }

/-- `ADC`: `t = A + v + C`, `r = t & 0xFFFF`,
`V = ((A ^ r) & (v ^ r) & 0x8000) != 0`, `C = t > 0xFFFF`. -/
def ADC (c : CPU6502) (v : Nat) : CPU6502 :=
  let t := c.a + v + (if getFlag c.p CARRY then 1 else 0)
  let r := t &&& 0xFFFF
  let c := { c with p := setFlag c.p OVERFLOW ((c.a ^^^ r) &&& (v ^^^ r) &&& 0x8000 != 0) }
  let c := { c with p := setFlag c.p CARRY (decide (t > 0xFFFF)) }
  let c := { c with a := r }
  let c := update_zn_flags c c.a
  { c with cycles := c.cycles + 2 }

/-- `SBC`: `t = A - v - (0 if C else 1)` (a Python int, possibly negative),
`r = t & 0xFFFF`, `V = ((A ^ r) & ((~v) ^ r) & 0x8000) != 0`, `C = t >= 0`.
Bit 15 of `(~v) ^ r` is the negation of bit 15 of `v ^ r`, so the overflow
test is rendered as `(A ^ r) & 0x8000 != 0 && (v ^ r) & 0x8000 == 0`. -/
def SBC (c : CPU6502) (v : Nat) : CPU6502 :=
  let t : Int := (c.a : Int) - (v : Int) - (if getFlag c.p CARRY then 0 else 1)
  let r := pyMask16 t
  let vtest := ((c.a ^^^ r) &&& 0x8000 != 0) && ((v ^^^ r) &&& 0x8000 == 0)
  let c := { c with p := setFlag c.p OVERFLOW vtest }
  let c := { c with p := setFlag c.p CARRY (decide (t ≥ 0)) }
  let c := { c with a := r }
  let c := update_zn_flags c c.a
  { c with cycles := c.cycles + 2 }

/-- `CMP`: `d = A - v` (possibly negative), flags from `d & 0xFFFF`,
`C = A >= v`. -/
def CMP (c : CPU6502) (v : Nat) : CPU6502 :=
  let d : Int := (c.a : Int) - (v : Int)
  let c := update_zn_flags c (pyMask16 d)
  let c := { c with p := setFlag c.p CARRY (decide (c.a ≥ v)) }
  { c with cycles := c.cycles + 2 }

/-- `CPX`. -/
def CPX (c : CPU6502) (v : Nat) : CPU6502 :=
  let d : Int := (c.x : Int) - (v : Int)
  let c := update_zn_flags c (pyMask16 d)
  let c := { c with p := setFlag c.p CARRY (decide (c.x ≥ v)) }
  { c with cycles := c.cycles + 2 }

/-- `CMPC`: compare A with the little-endian word at `addr`/`addr+1`. -/
def CMPC (c : CPU6502) (addr : Nat) : CPU6502 × Except String Unit :=
  match readMem c.mem addr with
  | .error e => (c, .error e)
  | .ok low =>
    match readMem c.mem (addr + 1) with
    | .error e => (c, .error e)
    | .ok high =>
      let v := low ||| (high <<< 8)
      let d : Int := (c.a : Int) - (v : Int)
      let c := update_zn_flags c (pyMask16 d)
      let c := { c with p := setFlag c.p CARRY (decide (c.a ≥ v)) }
      ({ c with cycles := c.cycles + 4 }, .ok ())

/-- `AND`. -/
def AND (c : CPU6502) (v : Nat) : CPU6502 :=
  let c := { c with a := c.a &&& v }
  let c := update_zn_flags c c.a
  { c with cycles := c.cycles + 2 }

/-- `ORA`. -/
def ORA (c : CPU6502) (v : Nat) : CPU6502 :=
  let c := { c with a := c.a ||| v }
  let c := update_zn_flags c c.a
  { c with cycles := c.cycles + 2 }

/-- `EOR`. -/
def EOR (c : CPU6502) (v : Nat) : CPU6502 :=
  let c := { c with a := c.a ^^^ v }
  let c := update_zn_flags c c.a
  { c with cycles := c.cycles + 2 }

/-- `TAX`. -/
def TAX (c : CPU6502) : CPU6502 :=
  let c := { c with x := c.a }
  let c := update_zn_flags c c.x
  { c with cycles := c.cycles + 2 }

/-- `XTA`. -/
def XTA (c : CPU6502) : CPU6502 :=
  let c := { c with a := c.x }
  let c := update_zn_flags c c.a
  { c with cycles := c.cycles + 2 }

/-- `CLC`. -/
def CLC (c : CPU6502) : CPU6502 :=
  let c := { c with p := setFlag c.p CARRY false }
  { c with cycles := c.cycles + 1 }

/-- `NOP`. -/
def NOP (c : CPU6502) : CPU6502 :=
  { c with cycles := c.cycles + 2 }

/-- `A_to_store`: write A little-endian at `addr`/`addr+1`. -/
def A_to_store (c : CPU6502) (addr : Nat) : CPU6502 × Except String Unit :=
  match writeMem c.mem addr (c.a &&& 0xFF) with
  | .error e => (c, .error e)
  | .ok m1 =>
    let c := { c with mem := m1 }
    match writeMem c.mem (addr + 1) ((c.a >>> 8) &&& 0xFF) with
    | .error e => (c, .error e)
    | .ok m2 => ({ c with mem := m2, cycles := c.cycles + 4 }, .ok ())

/-- `from_store_to_A`. -/
def from_store_to_A (c : CPU6502) (addr : Nat) : CPU6502 × Except String Unit :=
  match readMem c.mem addr with
  | .error e => (c, .error e)
  | .ok low =>
    match readMem c.mem (addr + 1) with
    | .error e => (c, .error e)
    | .ok high =>
      let c := { c with a := (high <<< 8) ||| low }
      let c := update_zn_flags c c.a
      ({ c with cycles := c.cycles + 4 }, .ok ())

/-- `X_to_store`. -/
def X_to_store (c : CPU6502) (addr : Nat) : CPU6502 × Except String Unit :=
  match writeMem c.mem addr (c.x &&& 0xFF) with
  | .error e => (c, .error e)
  | .ok m1 =>
    let c := { c with mem := m1 }
    match writeMem c.mem (addr + 1) ((c.x >>> 8) &&& 0xFF) with
    | .error e => (c, .error e)
    | .ok m2 => ({ c with mem := m2, cycles := c.cycles + 4 }, .ok ())

/-- `from_store_to_X`. -/
def from_store_to_X (c : CPU6502) (addr : Nat) : CPU6502 × Except String Unit :=
  match readMem c.mem addr with
  | .error e => (c, .error e)
  | .ok low =>
    match readMem c.mem (addr + 1) with
    | .error e => (c, .error e)
    | .ok high =>
      let c := { c with x := (high <<< 8) ||| low }
      let c := update_zn_flags c c.x
      ({ c with cycles := c.cycles + 4 }, .ok ())

/-- `MUL`: `A = (A * word_at addr) & 0xFFFF`. -/
def MUL (c : CPU6502) (addr : Nat) : CPU6502 × Except String Unit :=
  match readMem c.mem addr with
  | .error e => (c, .error e)
  | .ok low =>
    match readMem c.mem (addr + 1) with
    | .error e => (c, .error e)
    | .ok high =>
      let val := low ||| (high <<< 8)
      let c := { c with a := (c.a * val) &&& 0xFFFF }
      let c := update_zn_flags c c.a
      ({ c with cycles := c.cycles + 4 }, .ok ())

/-- `MULM`: multiply A with the word at `addr`, store the masked product back
little-endian at `addr`/`addr+1`. -/
def MULM (c : CPU6502) (addr : Nat) : CPU6502 × Except String Unit :=
  match readMem c.mem addr with
  | .error e => (c, .error e)
  | .ok low =>
    match readMem c.mem (addr + 1) with
    | .error e => (c, .error e)
    | .ok high =>
      let val := low ||| (high <<< 8)
      let result := (c.a * val) &&& 0xFFFF
      match writeMem c.mem addr (result &&& 0xFF) with
      | .error e => (c, .error e)
      | .ok m1 =>
        let c := { c with mem := m1 }
        match writeMem c.mem (addr + 1) ((result >>> 8) &&& 0xFF) with
        | .error e => (c, .error e)
        | .ok m2 =>
          let c := { c with mem := m2 }
          let c := update_zn_flags c result
          ({ c with cycles := c.cycles + 6 }, .ok ())

/-- `branch`: read the signed offset byte at PC, advance PC past it, then on
a met condition add the offset to PC modulo 65536 (3 cycles), otherwise
leave PC at the post-operand value (2 cycles). -/
def branch (c : CPU6502) (condition : Bool) : CPU6502 × Except String Unit :=
  match readMem c.mem c.pc with
  | .error e => (c, .error e)
  | .ok offsetByte =>
    let c := { c with pc := c.pc + 1 }
    let offset : Int := if offsetByte ≥ 0x80 then (offsetByte : Int) - 0x100 else (offsetByte : Int)
    if condition then
      ({ c with pc := pyMask16 ((c.pc : Int) + offset), cycles := c.cycles + 3 }, .ok ())
    else
      ({ c with cycles := c.cycles + 2 }, .ok ())

/-- Hex digit characters used by Python's `X` format. -/
def hexDigitChar (n : Nat) : Char :=
  ['0', '1', '2', '3', '4', '5', '6', '7', '8', '9',
   'A', 'B', 'C', 'D', 'E', 'F'].getD n '0'

/-- Uppercase hex digits of `n`, most significant first. -/
def toHexAux (n : Nat) (acc : List Char) : List Char :=
  if h : n < 16 then hexDigitChar n :: acc
  else toHexAux (n / 16) (hexDigitChar (n % 16) :: acc)
termination_by n
decreasing_by omega

/-- Python's `f-string` format `{n:02X}`: uppercase hex, zero-padded to at
least two digits. -/
def toHex2 (n : Nat) : String :=
  let ds := toHexAux n []
  String.mk (if ds.length < 2 then '0' :: ds else ds)

/-- `CPU6502.snapshot()`: the masked register/flag view recorded in traces. -/
structure Snapshot where
  pc : Nat
  a : Nat
  x : Nat
  y : Nat
  sp : Nat
  p : Nat
  cycles : Nat
  c : Bool
  z : Bool
  i : Bool
  d : Bool
  b : Bool
  v : Bool
  n : Bool
deriving DecidableEq

/-- `snapshot` of a processor state. -/
def snapshot (c : CPU6502) : Snapshot :=
  { pc := c.pc &&& 0xFFFF, a := c.a &&& 0xFFFF, x := c.x &&& 0xFFFF,
    y := c.y &&& 0xFFFF, sp := c.sp &&& 0xFF, p := c.p &&& 0xFF,
    cycles := c.cycles,
    c := getFlag c.p CARRY, z := getFlag c.p ZERO, i := getFlag c.p IRQ,
    d := getFlag c.p DECIMAL, b := getFlag c.p BRK,
    v := getFlag c.p OVERFLOW, n := getFlag c.p NEGATIVE }

/-- A processor wired to `run_program`'s collaborator hooks: the pre-supplied
input queue (popped front-first, default 0 when empty) and the accumulating
output list (each entry masked as in `run_program`'s `output_handler`). -/
structure Machine where
  cpu : CPU6502
  inputs : List Int
  outputs : List (Nat × Nat)

/-- Fetch one byte at PC and advance PC past it (the `memory[self._PC]`,
`self._PC += 1` idiom of `execute_instructions`). -/
def fetchByte (m : Machine) : Machine × Except String Nat :=
  match readMem m.cpu.mem m.cpu.pc with
  | .error e => (m, .error e)
  | .ok b0 => ({ m with cpu := { m.cpu with pc := m.cpu.pc + 1 } }, .ok b0)

/-- Fetch a little-endian word `memory[PC] | (memory[PC+1] << 8)` and advance
PC by 2 (both reads happen before the increment). -/
def fetchWord (m : Machine) : Machine × Except String Nat :=
  match readMem m.cpu.mem m.cpu.pc with
  | .error e => (m, .error e)
  | .ok low =>
    match readMem m.cpu.mem (m.cpu.pc + 1) with
    | .error e => (m, .error e)
    | .ok high =>
      ({ m with cpu := { m.cpu with pc := m.cpu.pc + 2 } }, .ok (low ||| (high <<< 8)))

/-- Repackage a CPU-method outcome as an `execute_instructions` outcome
(`true` = continue). -/
def liftCPU (m : Machine) (r : CPU6502 × Except String Unit) : Machine × Except String Bool :=
  ({ m with cpu := r.1 }, r.2.map fun _ => true)

/-- `from_console_to_A`, wired to `run_program`'s `input_provider`: pop the
front of the input queue (0 when empty), mask to 16 bits into A, recompute
Zero/Negative, 2 cycles. -/
def from_console_to_A (m : Machine) : Machine :=
  let v : Int := match m.inputs with | [] => 0 | h :: _ => h
  let rest : List Int := match m.inputs with | [] => [] | _ :: t => t
  let c := { m.cpu with a := pyMask16 v }
  let c := update_zn_flags c c.a
  { m with cpu := { c with cycles := c.cycles + 2 }, inputs := rest }

/-- `Output_to_console`, wired to `run_program`'s `output_handler`: read the
little-endian word at `addr`/`addr+1` and append the masked
`(value, address)` pair to the outputs, 4 cycles. -/
def Output_to_console (m : Machine) (addr : Nat) : Machine × Except String Unit :=
  match readMem m.cpu.mem addr with
  | .error e => (m, .error e)
  | .ok low =>
    match readMem m.cpu.mem (addr + 1) with
    | .error e => (m, .error e)
    | .ok high =>
      let value := (high <<< 8) ||| low
      let c := { m.cpu with cycles := m.cpu.cycles + 4 }
      ({ m with cpu := c, outputs := m.outputs ++ [(value &&& 0xFFFF, addr &&& 0xFFFF)] }, .ok ())

/-- `execute_instructions`: one fetch-decode-execute step.  Returns the
(partially) mutated machine together with `ok false` on the halt opcode
0x00, `ok true` to continue, or the raised error (`Unknown opcode`/index
errors), mirroring the `if/elif` dispatch chain byte for byte. -/
def executeInstructions (m : Machine) : Machine × Except String Bool :=
  match fetchByte m with
  | (m0, .error e) => (m0, .error e)
  | (m0, .ok op) =>
    if op = 0x00 then (m0, .ok false)
    else if op = 0x01 then
      match fetchByte m0 with
      | (m1, .error e) => (m1, .error e)
      | (m1, .ok addr) => liftCPU m1 (A_to_store m1.cpu addr)
    else if op = 0x02 then
      match fetchByte m0 with
      | (m1, .error e) => (m1, .error e)
      | (m1, .ok addr) => liftCPU m1 (from_store_to_A m1.cpu addr)
    else if op = 0x03 then
      match fetchByte m0 with
      | (m1, .error e) => (m1, .error e)
      | (m1, .ok addr) => liftCPU m1 (X_to_store m1.cpu addr)
    else if op = 0x04 then
      match fetchByte m0 with
      | (m1, .error e) => (m1, .error e)
      | (m1, .ok addr) => liftCPU m1 (from_store_to_X m1.cpu addr)
    else if op = 0x05 then (from_console_to_A m0, .ok true)
    else if op = 0x06 then
      match fetchByte m0 with
      | (m1, .error e) => (m1, .error e)
      | (m1, .ok addr) =>
        match Output_to_console m1 addr with
        | (m2, r) => (m2, r.map fun _ => true)
    else if op = 0x07 then
      match fetchByte m0 with
      | (m1, .error e) => (m1, .error e)
      | (m1, .ok addr) => liftCPU m1 (MUL m1.cpu addr)
    else if op = 0x08 then ({ m0 with cpu := XTA m0.cpu }, .ok true)
    else if op = 0x09 then
      match fetchWord m0 with
      | (m1, .error e) => (m1, .error e)
      | (m1, .ok val) => ({ m1 with cpu := ORA m1.cpu val }, .ok true)
    else if op = 0x10 then liftCPU m0 (branch m0.cpu (!(getFlag m0.cpu.p NEGATIVE)))
    else if op = 0x14 then
      match fetchByte m0 with
      | (m1, .error e) => (m1, .error e)
      | (m1, .ok addr) => liftCPU m1 (MULM m1.cpu addr)
    else if op = 0x18 then ({ m0 with cpu := CLC m0.cpu }, .ok true)
    else if op = 0x29 then
      match fetchWord m0 with
      | (m1, .error e) => (m1, .error e)
      | (m1, .ok val) => ({ m1 with cpu := AND m1.cpu val }, .ok true)
    else if op = 0x30 then liftCPU m0 (branch m0.cpu (getFlag m0.cpu.p NEGATIVE))
    else if op = 0x49 then
      match fetchWord m0 with
      | (m1, .error e) => (m1, .error e)
      | (m1, .ok val) => ({ m1 with cpu := EOR m1.cpu val }, .ok true)
    else if op = 0x4C then
      match readMem m0.cpu.mem m0.cpu.pc with
      | .error e => (m0, .error e)
      | .ok low =>
        match readMem m0.cpu.mem (m0.cpu.pc + 1) with
        | .error e => (m0, .error e)
        | .ok high =>
          let c := { m0.cpu with pc := (high <<< 8) ||| low, cycles := m0.cpu.cycles + 3 }
          ({ m0 with cpu := c }, .ok true)
    else if op = 0x50 then liftCPU m0 (branch m0.cpu (!(getFlag m0.cpu.p OVERFLOW)))
    else if op = 0x69 then
      match fetchWord m0 with
      | (m1, .error e) => (m1, .error e)
      | (m1, .ok val) => ({ m1 with cpu := ADC m1.cpu val }, .ok true)
    else if op = 0x70 then liftCPU m0 (branch m0.cpu (getFlag m0.cpu.p OVERFLOW))
    else if op = 0x90 then liftCPU m0 (branch m0.cpu (!(getFlag m0.cpu.p CARRY)))
    else if op = 0xA0 then
      match fetchWord m0 with
      | (m1, .error e) => (m1, .error e)
      | (m1, .ok val) => ({ m1 with cpu := LDY m1.cpu val }, .ok true)
    else if op = 0xA2 then
      match fetchWord m0 with
      | (m1, .error e) => (m1, .error e)
      | (m1, .ok val) => ({ m1 with cpu := LDX m1.cpu val }, .ok true)
    else if op = 0xA9 then
      match fetchWord m0 with
      | (m1, .error e) => (m1, .error e)
      | (m1, .ok val) => ({ m1 with cpu := LDA m1.cpu val }, .ok true)
    else if op = 0xAA then ({ m0 with cpu := TAX m0.cpu }, .ok true)
    else if op = 0xB0 then liftCPU m0 (branch m0.cpu (getFlag m0.cpu.p CARRY))
    else if op = 0xC9 then
      match fetchWord m0 with
      | (m1, .error e) => (m1, .error e)
      | (m1, .ok val) => ({ m1 with cpu := CMP m1.cpu val }, .ok true)
    else if op = 0xCD then
      match fetchByte m0 with
      | (m1, .error e) => (m1, .error e)
      | (m1, .ok addr) => liftCPU m1 (CMPC m1.cpu addr)
    else if op = 0xD0 then liftCPU m0 (branch m0.cpu (!(getFlag m0.cpu.p ZERO)))
    else if op = 0xE0 then
      match fetchWord m0 with
      | (m1, .error e) => (m1, .error e)
      | (m1, .ok val) => ({ m1 with cpu := CPX m1.cpu val }, .ok true)
    else if op = 0xE9 then
      match fetchWord m0 with
      | (m1, .error e) => (m1, .error e)
      | (m1, .ok val) => ({ m1 with cpu := SBC m1.cpu val }, .ok true)
    else if op = 0xEA then ({ m0 with cpu := NOP m0.cpu }, .ok true)
    else if op = 0xF0 then liftCPU m0 (branch m0.cpu (getFlag m0.cpu.p ZERO))
    else (m0, .error ("Unknown opcode " ++ toHex2 op))

/-! ## Assembler (`assembler.py`)

Text handling is embedded at the character level: each Python string
operation used by `_parse_source` (`splitlines`, `split(sep, 1)[0]`,
`strip`, whitespace `split()`, `upper`) is rendered as a structural
recursion over the string's character list. -/

/-- The ASCII whitespace characters Python's `strip`/`split` treat as
blank. -/
def pyIsSpace (c : Char) : Bool :=
  c = ' ' || c = '\t' || c = '\n' || c = '\r' || c = '\x0b' || c = '\x0c'

/-- Split a character list at every character satisfying `sep`, keeping
empty segments. -/
def splitOnPred (sep : Char → Bool) : List Char → List (List Char)
  | [] => [[]]
  | c :: rest =>
    match splitOnPred sep rest with
    | [] => [[]]
    | part :: parts => if sep c then [] :: part :: parts else (c :: part) :: parts

/-- Python `str.splitlines()` for `\n`-separated text: split on newlines,
with no trailing empty line. -/
def pySplitlines (s : String) : List String :=
  let parts := splitOnPred (fun c => c = '\n') s.toList
  let parts :=
    match parts.reverse with
    | [] => []
    | last :: rest => if last.isEmpty then rest.reverse else parts
  parts.map fun cs => String.mk cs

/-- Python `s.split(sep, 1)[0]`: the text before the first `sep` (the whole
string when absent). -/
def pyBefore (sep : Char) (s : String) : String :=
  String.mk (s.toList.takeWhile fun c => c ≠ sep)

/-- Python `s.split(sep, 1)`: the text before the first `sep` and the rest
after it. -/
def pySplit1 (sep : Char) (s : String) : String × String :=
  (String.mk (s.toList.takeWhile fun c => c ≠ sep),
   String.mk ((s.toList.dropWhile fun c => c ≠ sep).drop 1))

/-- Python `str.strip()`. -/
def pyStrip (s : String) : String :=
  String.mk (((s.toList.dropWhile pyIsSpace).reverse.dropWhile pyIsSpace).reverse)

/-- Python `str.split()` with no argument: split on whitespace runs,
discarding empty segments. -/
def pySplitWs (s : String) : List String :=
  ((splitOnPred pyIsSpace s.toList).filter fun p => !p.isEmpty).map fun cs => String.mk cs

/-- Python `str.upper()` (ASCII). -/
def pyToUpper (s : String) : String :=
  String.mk (s.toList.map Char.toUpper)

/-- Value of one hexadecimal digit. -/
def hexVal (c : Char) : Option Nat :=
  if '0' ≤ c ∧ c ≤ '9' then some (c.toNat - '0'.toNat)
  else if 'a' ≤ c ∧ c ≤ 'f' then some (c.toNat - 'a'.toNat + 10)
  else if 'A' ≤ c ∧ c ≤ 'F' then some (c.toNat - 'A'.toNat + 10)
  else none

/-- Hex digits after the first: single underscores are allowed between
digits (Python's numeric-literal grammar), nothing else. -/
def parseHexCore : List Char → Nat → Option Nat
  | [], acc => some acc
  | '_' :: rest, acc =>
    match rest with
    | [] => none
    | c :: rest2 =>
      match hexVal c with
      | some d => parseHexCore rest2 (acc * 16 + d)
      | none => none
  | c :: rest, acc =>
    match hexVal c with
    | some d => parseHexCore rest (acc * 16 + d)
    | none => none

/-- A nonempty run of hex digits with optional single underscores between
them. -/
def parseHexDigits : List Char → Option Nat
  | [] => none
  | c :: rest =>
    match hexVal c with
    | some d => parseHexCore rest d
    | none => none

/-- Python `int(s, 16)`: optional surrounding whitespace, optional sign,
optional `0x`/`0X` prefix (an underscore may follow the prefix), then hex
digits; `none` models the `ValueError` on malformed input. -/
def pyIntHex (s : String) : Option Int :=
  let t := (pyStrip s).toList
  let signAndDigits : Int × List Char :=
    match t with
    | '+' :: r => (1, r)
    | '-' :: r => (-1, r)
    | r => (1, r)
  let cs := signAndDigits.2
  let mag : Option Nat :=
    match cs with
    | '0' :: c2 :: rest =>
      if c2 = 'x' ∨ c2 = 'X' then
        match rest with
        | '_' :: r2 => parseHexDigits r2
        | _ => parseHexDigits rest
      else parseHexDigits cs
    | _ => parseHexDigits cs
  mag.map fun mg => signAndDigits.1 * (mg : Int)

/-- `_parse_number`: `int(token, 16)`, raising `ValueError` on malformed
input. -/
def _parse_number (token : String) : Except String Int :=
  match pyIntHex token with
  | some v => .ok v
  | none => .error ("invalid literal for int() with base 16: \x27" ++ token ++ "\x27")

/-- The statement records produced by `_parse_source`. -/
inductive Stmt where
  | label (value : String)
  | instruction (op : String) (arg : Option String)
  | byte (value : String)
deriving DecidableEq

/-- The `OPCODES` mnemonic table. -/
def OPCODES : List (String × Nat) :=
  [("LDA", 0xA9), ("LDX", 0xA2), ("LDY", 0xA0), ("ADC", 0x69), ("SBC", 0xE9),
   ("CMP", 0xC9), ("CPX", 0xE0), ("AND", 0x29), ("ORA", 0x09), ("EOR", 0x49),
   ("NOP", 0xEA), ("BRK", 0x00), ("TAX", 0xAA), ("BNE", 0xD0), ("BEQ", 0xF0),
   ("BCC", 0x90), ("BCS", 0xB0), ("BMI", 0x30), ("BPL", 0x10), ("BVS", 0x70),
   ("BVC", 0x50), ("CLC", 0x18), ("JMP", 0x4C), ("MUL", 0x07), ("MULM", 0x14),
   ("CMPC", 0xCD), ("STA", 0x01), ("LSA", 0x02), ("STX", 0x03), ("LSX", 0x04),
   ("CTA", 0x05), ("OTT", 0x06), ("XTA", 0x08)]

/-- `NO_ARG`. -/
def NO_ARG : List String := ["BRK", "NOP", "XTA", "CLC", "CTA", "TAX"]

/-- `ABSOLUTE_ADDR`. -/
def ABSOLUTE_ADDR : List String := ["JMP"]

/-- `IMM16_OPS`. -/
def IMM16_OPS : List String :=
  ["LDA", "LDX", "LDY", "ADC", "SBC", "CMP", "CPX", "AND", "ORA", "EOR"]

/-- `BRANCH_OPS`. -/
def BRANCH_OPS : List String :=
  ["BNE", "BEQ", "BCC", "BCS", "BMI", "BPL", "BVS", "BVC"]

/-- `_instruction_size`. -/
def _instruction_size (op : String) : Nat :=
  if NO_ARG.contains op then 1
  else if IMM16_OPS.contains op || ABSOLUTE_ADDR.contains op then 3
  else 2

/-- The statements contributed by one source line of `_parse_source`: strip
comments and blanks, register a leading `label:`, then classify the rest as
a known mnemonic (with at most one argument token) or a raw byte. -/
def parseOneLine (rawLine : String) : Except String (List Stmt) :=
  let line := pyStrip (pyBefore '#' (pyBefore ';' rawLine))
  if line = "" then .ok []
  else
    let labelled : List Stmt × String :=
      if line.toList.contains ':' then
        let ht := pySplit1 ':' line
        let lbl := pyStrip ht.1
        ((if lbl ≠ "" then [Stmt.label lbl] else []), pyStrip ht.2)
      else ([], line)
    let labelStmts := labelled.1
    let body := labelled.2
    if body = "" then .ok labelStmts
    else
      let parts := pySplitWs body
      let op := pyToUpper (parts.headD "")
      let arg := parts[1]?
      if parts.length > 2 then
        .error ("Too many tokens in line: \x27" ++ rawLine ++ "\x27")
      else if (OPCODES.lookup op).isSome then
        .ok (labelStmts ++ [Stmt.instruction op arg])
      else
        .ok (labelStmts ++ [Stmt.byte op])

/-- `_parse_source`'s line loop. -/
def parseLines : List String → Except String (List Stmt)
  | [] => .ok []
  | l :: rest =>
    match parseOneLine l with
    | .error e => .error e
    | .ok sts =>
      match parseLines rest with
      | .error e => .error e
      | .ok more => .ok (sts ++ more)

/-- `_parse_source`. -/
def _parse_source (source : String) : Except String (List Stmt) :=
  parseLines (pySplitlines source)

/-- The empty label table. -/
def emptyLabels : String → Option Nat := fun _ => none

/-- Assembler pass 1: accumulate byte offsets and bind each label to the
current offset (a later binding of the same name overwrites the earlier
one, as Python dict assignment does); returns the table and the final
offset. -/
def pass1 : List Stmt → (String → Option Nat) → Nat → (String → Option Nat) × Nat
  | [], labels, addr => (labels, addr)
  | Stmt.label v :: rest, labels, addr =>
    pass1 rest (fun k => if k = v then some addr else labels k) addr
  | Stmt.instruction op _ :: rest, labels, addr =>
    pass1 rest labels (addr + _instruction_size op)
  | Stmt.byte _ :: rest, labels, addr => pass1 rest labels (addr + 1)

/-- Assembler pass 2, one statement: the bytes emitted for it and the
updated offset (the loop body of `assemble_source`'s second pass). -/
def encodeStmt (labels : String → Option Nat) (addr : Nat) : Stmt → Except String (List Nat × Nat)
  | Stmt.label _ => .ok ([], addr)
  | Stmt.instruction op arg =>
    match OPCODES.lookup op with
    | none => .error ("\x27" ++ op ++ "\x27")
    | some opcode =>
      let addr := addr + 1
      if NO_ARG.contains op then .ok ([opcode], addr)
      else
        match arg with
        | none => .error ("Instruction \x27" ++ op ++ "\x27 expects an argument")
        | some a =>
          match labels a with
          | some target =>
            if BRANCH_OPS.contains op then
              let offset : Int := (target : Int) - ((addr : Int) + 1)
              if offset < -128 ∨ offset > 127 then
                .error ("Branch offset out of range for \x27" ++ op ++ " " ++ a ++ "\x27: " ++ toString offset)
              else .ok ([opcode, pyMask8 offset], addr + 1)
            else if ABSOLUTE_ADDR.contains op ∨ IMM16_OPS.contains op then
              .ok ([opcode, target &&& 0xFF, (target >>> 8) &&& 0xFF], addr + 2)
            else
              .ok ([opcode, target &&& 0xFF], addr + 1)
          | none =>
            match _parse_number a with
            | .error e => .error e
            | .ok value =>
              if ABSOLUTE_ADDR.contains op ∨ IMM16_OPS.contains op then
                .ok ([opcode, pyMask8 value, pyShr8Mask8 value], addr + 2)
              else
                .ok ([opcode, pyMask8 value], addr + 1)
  | Stmt.byte v =>
    match _parse_number v with
    | .error e => .error e
    | .ok value => .ok ([pyMask8 value], addr + 1)

/-- Assembler pass 2: emit the byte sequence with the label table filled. -/
def pass2 (labels : String → Option Nat) : List Stmt → Nat → Except String (List Nat)
  | [], _ => .ok []
  | st :: rest, addr =>
    match encodeStmt labels addr st with
    | .error e => .error e
    | .ok br =>
      match pass2 labels rest br.2 with
      | .error e => .error e
      | .ok more => .ok (br.1 ++ more)

/-- The two passes of `assemble_source` after parsing. -/
def assembleStmts (statements : List Stmt) : Except String (List Nat) :=
  pass2 (pass1 statements emptyLabels 0).1 statements 0

/-- `assemble_source`. -/
def assemble_source (source : String) : Except String (List Nat) :=
  match _parse_source source with
  | .error e => .error e
  | .ok statements => assembleStmts statements

/-! ## The run driver (`run_program`) -/

/-- Load the assembled bytes into memory from address `start`
(`cpu.memory[start + idx] = byte & 0xFF`); each write is a Python list
assignment, so an index at or past 65536 raises an uncaught
`IndexError`. -/
def loadList (mem : Nat → Nat) : List Nat → Nat → Except String (Nat → Nat)
  | [], _ => .ok mem
  | b :: rest, start =>
    match writeMem mem start (b &&& 0xFF) with
    | .error e => .error e
    | .ok m2 => loadList m2 rest (start + 1)

/-- One per-step trace record: either a completed step (pre/post snapshots,
halted flag) or a step whose execution raised (pre snapshot and the error
text), each with the runtime-written-memory view. -/
inductive TraceEntry where
  | ok (step : Nat) (opcode : Nat) (before after : Snapshot) (halted : Bool)
      (memoryUsed : List (Nat × Nat))
  | err (step : Nat) (opcode : Nat) (before : Snapshot) (error : String)
      (memoryUsed : List (Nat × Nat))
deriving DecidableEq

/-- The dictionary `run_program` returns. -/
structure RunResult where
  program : List Nat
  trace : List TraceEntry
  halted : Bool
  error : Option String
  outputs : List (Nat × Nat)
  final_state : Snapshot
deriving DecidableEq

/-- Add an address to the runtime-written set (`set.add`). -/
def insertOcc (occ : List Nat) (a : Nat) : List Nat :=
  if occ.contains a then occ else occ ++ [a]

/-- Insertion into a sorted list. -/
def insertSorted (a : Nat) : List Nat → List Nat
  | [] => [a]
  | b :: rest => if a ≤ b then a :: b :: rest else b :: insertSorted a rest

/-- Python `sorted`. -/
def sortNats (l : List Nat) : List Nat := l.foldr insertSorted []

/-- `snapshot_occupied_memory`: the tracked addresses in sorted order with
their current cell values. -/
def snapOcc (occ : List Nat) (mem : Nat → Nat) : List (Nat × Nat) :=
  (sortNats occ).map fun a => (a &&& 0xFFFF, mem a &&& 0xFF)

/-- What `run_program`'s step loop produces. -/
structure LoopOut where
  trace : List TraceEntry
  halted : Bool
  error : Option String
  mach : Machine

/-- The step loop of `run_program`: up to `maxSteps` steps; a raised
execution error is captured into the trace and ends the run with
`halted = false`, the halt opcode ends it with `halted = true`, and
exhausting the budget reports `Exceeded max_steps=...`.  The opcode peek
before the `try` block (`op = cpu.memory[cpu._PC]`) is outside the capture,
so its `IndexError` propagates as an uncaught `.error`. -/
def runLoop (maxSteps : Nat) : Machine → List Nat → Nat → Nat → List TraceEntry → Except String LoopOut
  | mach, _, _, 0, trace =>
    .ok ⟨trace, false, some ("Exceeded max_steps=" ++ toString maxSteps), mach⟩
  | mach, occ, stepIdx, remaining + 1, trace =>
    let before := snapshot mach.cpu
    match readMem mach.cpu.mem mach.cpu.pc with
    | .error e => .error e
    | .ok op =>
      let occ2 :=
        if op = 0x01 ∨ op = 0x03 ∨ op = 0x14 then
          let target := mach.cpu.mem ((mach.cpu.pc + 1) &&& 0xFFFF)
          insertOcc (insertOcc occ (target &&& 0xFFFF)) ((target + 1) &&& 0xFFFF)
        else occ
      match executeInstructions mach with
      | (mach2, .error e) =>
        .ok ⟨trace ++ [TraceEntry.err stepIdx op before e (snapOcc occ2 mach2.cpu.mem)],
             false, some e, mach2⟩
      | (mach2, .ok cont) =>
        let entry := TraceEntry.ok stepIdx op before (snapshot mach2.cpu) (!cont)
          (snapOcc occ2 mach2.cpu.mem)
        if cont then runLoop maxSteps mach2 occ2 (stepIdx + 1) remaining (trace ++ [entry])
        else .ok ⟨trace ++ [entry], true, none, mach2⟩

/-- `run_program` after assembly: prime memory at 0, point PC at 0, run the
step loop, and package the result dictionary. -/
def run_body (program : List Nat) (maxSteps : Nat) (inputs : List Int) : Except String RunResult :=
  match loadList initCPU.mem program 0 with
  | .error e => .error e
  | .ok mem0 =>
    let cpu := { initCPU with mem := mem0, pc := 0 }
    let mach : Machine := { cpu := cpu, inputs := inputs, outputs := [] }
    match runLoop maxSteps mach [] 1 maxSteps [] with
    | .error e => .error e
    | .ok out =>
      .ok ⟨program, out.trace, out.halted, out.error, out.mach.outputs, snapshot out.mach.cpu⟩

/-- `run_program` on an already-parsed statement list: assemble, then run. -/
def run_statements (sts : List Stmt) (maxSteps : Nat) (inputs : List Int) : Except String RunResult :=
  match assembleStmts sts with
  | .error e => .error e
  | .ok program => run_body program maxSteps inputs

/-- `run_program source max_steps inputs`. -/
def run_program (source : String) (maxSteps : Nat) (inputs : List Int) : Except String RunResult :=
  match _parse_source source with
  | .error e => .error e
  | .ok sts => run_statements sts maxSteps inputs

/-! ## Definitions used to state the claims -/

/-- The opcode bytes the `execute_instructions` dispatch chain recognizes
(everything else raises `Unknown opcode`). -/
def dispatchedOpcodes : List Nat :=
  [0x00, 0x01, 0x02, 0x03, 0x04, 0x05, 0x06, 0x07, 0x08, 0x09, 0x10, 0x14,
   0x18, 0x29, 0x30, 0x49, 0x4C, 0x50, 0x69, 0x70, 0x90, 0xA0, 0xA2, 0xA9,
   0xAA, 0xB0, 0xC9, 0xCD, 0xD0, 0xE0, 0xE9, 0xEA, 0xF0]

/-- The flag condition each conditional-branch opcode passes to `branch` in
the dispatch chain (`none` for non-branch opcodes). -/
def branchCondition (op : Nat) (c : CPU6502) : Option Bool :=
  if op = 0x10 then some (!(getFlag c.p NEGATIVE))
  else if op = 0x30 then some (getFlag c.p NEGATIVE)
  else if op = 0x50 then some (!(getFlag c.p OVERFLOW))
  else if op = 0x70 then some (getFlag c.p OVERFLOW)
  else if op = 0x90 then some (!(getFlag c.p CARRY))
  else if op = 0xB0 then some (getFlag c.p CARRY)
  else if op = 0xD0 then some (!(getFlag c.p ZERO))
  else if op = 0xF0 then some (getFlag c.p ZERO)
  else none

/-- Encoded size of one statement (labels take no bytes). -/
def stmtSize : Stmt → Nat
  | .label _ => 0
  | .instruction op _ => _instruction_size op
  | .byte _ => 1

/-- Total encoded size of a statement list. -/
def stmtsLen (sts : List Stmt) : Nat := (sts.map stmtSize).sum

/-- Whether a statement is a label declaration. -/
def isLabelStmt : Stmt → Bool
  | .label _ => true
  | _ => false

/-- Whether a statement list declares the given label name. -/
def definesLabel (name : String) : List Stmt → Bool
  | [] => false
  | Stmt.label v :: rest => v == name || definesLabel name rest
  | _ :: rest => definesLabel name rest

/-- The whitespace-separated argument tokens the parser examines on one
source line, after comment stripping and label splitting (empty for blank
or label-only lines). -/
def lineParts (rawLine : String) : List String :=
  let line := pyStrip (pyBefore '#' (pyBefore ';' rawLine))
  let body := if line.toList.contains ':' then pyStrip (pySplit1 ':' line).2 else line
  pySplitWs body

/-- The signed reading of an offset byte (`if offset >= 0x80: offset -= 0x100`). -/
def byteToSigned (b : Nat) : Int := if b ≥ 0x80 then (b : Int) - 0x100 else (b : Int)

/-! Concrete machines used to instantiate the theorems. -/

/-- A machine with a NOP (0xEA) at the top memory address and PC = 0xFFFF. -/
def nopAtTop : Machine :=
  { cpu := { initCPU with pc := 0xFFFF, mem := fun i => if i = 0xFFFF then 0xEA else 0 },
    inputs := [], outputs := [] }

/-- A machine with a single NOP at address 0. -/
def nopAtZero : Machine :=
  { cpu := { initCPU with mem := fun i => if i = 0 then 0xEA else 0 },
    inputs := [], outputs := [] }

/-- A processor whose current byte is the offset 5 (for exercising `branch`). -/
def offsetDemo : CPU6502 := { initCPU with mem := fun i => if i = 0 then 5 else 0 }

/-- A machine with `BNE 5` at address 0 (Zero clear, so the branch is taken). -/
def bneDemo : Machine :=
  { cpu := { initCPU with mem := fun i => if i = 0 then 0xD0 else if i = 1 then 5 else 0 },
    inputs := [], outputs := [] }

/-- A machine with a console-input opcode at address 0 and queue [7, 9]. -/
def ctaDemo : Machine :=
  { cpu := { initCPU with mem := fun i => if i = 0 then 0x05 else 0 },
    inputs := [7, 9], outputs := [] }

/-- The machine `run_program` builds for the one-byte program [0xFF]. -/
def ffMach : Machine :=
  { cpu := { initCPU with mem := (loadList initCPU.mem [0xFF] 0).toOption.getD initCPU.mem, pc := 0 },
    inputs := [], outputs := [] }

/-- The snapshot of the freshly initialized processor. -/
def initSnap : Snapshot :=
  { pc := 0, a := 0, x := 0, y := 0, sp := 0xFD, p := 0x20, cycles := 0,
    c := false, z := false, i := false, d := false, b := false, v := false, n := false }

/-- The snapshot right after executing the halt opcode at address 0. -/
def haltSnap : Snapshot := { initSnap with pc := 1 }

/-! ## Status-byte lemmas -/

/-- Python's `p & ~m` on naturals, rendered in `setFlag` as `p - (p &&& m)`,
is the bitwise difference `Nat.ldiff`. -/
theorem sub_land_eq_ldiff (p m : Nat) : p - (p &&& m) = Nat.ldiff p m := by
  induction p using Nat.binaryRec generalizing m with
  | z =>
    have h0 : Nat.ldiff 0 m = 0 := Nat.eq_of_testBit_eq (by simp)
    simp [h0]
  | f b n ih =>
    rw [← Nat.bit_testBit_zero_shiftRight_one m, Nat.land_bit, Nat.ldiff_bit, ← ih]
    have hle : n &&& (m >>> 1) ≤ n := Nat.and_le_left
    cases b <;> cases m.testBit 0 <;> simp [Nat.bit_val] <;> omega

/-- Bit-level view of a flag write: `setFlag` forces the mask's bits to `v`
and leaves all other bits unchanged. -/
theorem testBit_setFlag (p mask : Nat) (v : Bool) (j : Nat) :
    (setFlag p mask v).testBit j = if mask.testBit j then v else p.testBit j := by
  unfold setFlag
  cases v with
  | true =>
    rw [if_pos rfl]
    rw [Nat.testBit_lor]
    cases mask.testBit j <;> cases p.testBit j <;> simp
  | false =>
    rw [if_neg (by simp)]
    rw [sub_land_eq_ldiff, Nat.testBit_ldiff]
    cases mask.testBit j <;> cases p.testBit j <;> simp

/-- A flag read against a single-bit mask is a bit test. -/
theorem getFlag_two_pow (p k : Nat) : getFlag p (2 ^ k) = p.testBit k := by
  unfold getFlag
  rw [Nat.and_two_pow]
  cases h : p.testBit k <;> simp [h, (Nat.two_pow_pos k).ne']

/-- Bits of a single-bit mask. -/
theorem two_pow_testBit_eq (k j : Nat) : (2 ^ k : Nat).testBit j = decide (k = j) := by
  by_cases h : k = j
  · subst h; simp
  · rw [Nat.testBit_two_pow_of_ne h]; simp [h]

@[simp] theorem getFlag_CARRY (p : Nat) : getFlag p CARRY = p.testBit 0 := getFlag_two_pow p 0

@[simp] theorem getFlag_ZERO (p : Nat) : getFlag p ZERO = p.testBit 1 := getFlag_two_pow p 1

@[simp] theorem getFlag_IRQ (p : Nat) : getFlag p IRQ = p.testBit 2 := getFlag_two_pow p 2

@[simp] theorem getFlag_DECIMAL (p : Nat) : getFlag p DECIMAL = p.testBit 3 := getFlag_two_pow p 3

@[simp] theorem getFlag_BRK (p : Nat) : getFlag p BRK = p.testBit 4 := getFlag_two_pow p 4

@[simp] theorem getFlag_OVERFLOW (p : Nat) : getFlag p OVERFLOW = p.testBit 6 := getFlag_two_pow p 6

@[simp] theorem getFlag_NEGATIVE (p : Nat) : getFlag p NEGATIVE = p.testBit 7 := getFlag_two_pow p 7

@[simp] theorem CARRY_testBit (j : Nat) : CARRY.testBit j = decide (0 = j) := two_pow_testBit_eq 0 j

@[simp] theorem ZERO_testBit (j : Nat) : ZERO.testBit j = decide (1 = j) := two_pow_testBit_eq 1 j

@[simp] theorem IRQ_testBit (j : Nat) : IRQ.testBit j = decide (2 = j) := two_pow_testBit_eq 2 j

@[simp] theorem DECIMAL_testBit (j : Nat) : DECIMAL.testBit j = decide (3 = j) := two_pow_testBit_eq 3 j

@[simp] theorem BRK_testBit (j : Nat) : BRK.testBit j = decide (4 = j) := two_pow_testBit_eq 4 j

@[simp] theorem OVERFLOW_testBit (j : Nat) : OVERFLOW.testBit j = decide (6 = j) := two_pow_testBit_eq 6 j

@[simp] theorem NEGATIVE_testBit (j : Nat) : NEGATIVE.testBit j = decide (7 = j) := two_pow_testBit_eq 7 j

/-- `pyMask16` lands strictly below 65536. -/
theorem pyMask16_lt (x : Int) : pyMask16 x < 65536 := by
  unfold pyMask16
  have h1 : 0 ≤ x.emod 65536 := Int.emod_nonneg x (by omega)
  have h2 : x.emod 65536 < 65536 := Int.emod_lt_of_pos x (by omega)
  omega

/-- A successful in-range memory read. -/
theorem readMem_ok (mem : Nat → Nat) (addr : Nat) (h : addr < 65536) :
    readMem mem addr = .ok (mem addr) := by
  unfold readMem
  rw [if_pos h]

/-- A successful in-range fetch. -/
theorem fetchByte_ok (m : Machine) (h : m.cpu.pc < 65536) :
    fetchByte m = ({ m with cpu := { m.cpu with pc := m.cpu.pc + 1 } }, .ok (m.cpu.mem m.cpu.pc)) := by
  unfold fetchByte
  rw [readMem_ok m.cpu.mem m.cpu.pc h]

/-- A successful in-range word fetch. -/
theorem fetchWord_ok (m : Machine) (h : m.cpu.pc + 1 < 65536) :
    fetchWord m = ({ m with cpu := { m.cpu with pc := m.cpu.pc + 2 } },
      .ok (m.cpu.mem m.cpu.pc ||| (m.cpu.mem (m.cpu.pc + 1) <<< 8))) := by
  unfold fetchWord
  rw [readMem_ok m.cpu.mem m.cpu.pc (by omega), readMem_ok m.cpu.mem (m.cpu.pc + 1) h]

/-! PC-stability of the CPU methods (none of them touches the program
counter). -/

theorem A_to_store_pc (c : CPU6502) (addr : Nat) : (A_to_store c addr).1.pc = c.pc := by
  unfold A_to_store
  split
  · rfl
  · try dsimp only
    split <;> rfl

theorem from_store_to_A_pc (c : CPU6502) (addr : Nat) : (from_store_to_A c addr).1.pc = c.pc := by
  unfold from_store_to_A
  split
  · rfl
  · try dsimp only
    split <;> rfl

theorem X_to_store_pc (c : CPU6502) (addr : Nat) : (X_to_store c addr).1.pc = c.pc := by
  unfold X_to_store
  split
  · rfl
  · try dsimp only
    split <;> rfl

theorem from_store_to_X_pc (c : CPU6502) (addr : Nat) : (from_store_to_X c addr).1.pc = c.pc := by
  unfold from_store_to_X
  split
  · rfl
  · try dsimp only
    split <;> rfl

theorem MUL_pc (c : CPU6502) (addr : Nat) : (MUL c addr).1.pc = c.pc := by
  unfold MUL
  split
  · rfl
  · try dsimp only
    split <;> rfl

theorem MULM_pc (c : CPU6502) (addr : Nat) : (MULM c addr).1.pc = c.pc := by
  unfold MULM
  split
  · rfl
  · try dsimp only
    split
    · rfl
    · try dsimp only
      split
      · rfl
      · try dsimp only
        split <;> rfl

theorem CMPC_pc (c : CPU6502) (addr : Nat) : (CMPC c addr).1.pc = c.pc := by
  unfold CMPC
  split
  · rfl
  · try dsimp only
    split <;> rfl

theorem Output_to_console_pc (m : Machine) (addr : Nat) :
    (Output_to_console m addr).1.cpu.pc = m.cpu.pc := by
  unfold Output_to_console
  split
  · rfl
  · try dsimp only
    split <;> rfl

/-- After `branch` from an in-range PC, the program counter is in range
again: a taken branch is reduced modulo 65536 and an untaken one stops just
past the operand byte. -/
theorem branch_pc_lt (c : CPU6502) (cond : Bool) (h : c.pc + 1 < 65536) :
    (branch c cond).1.pc < 65536 := by
  unfold branch
  rw [readMem_ok c.mem c.pc (by omega)]
  cases cond with
  | true => simpa using pyMask16_lt _
  | false => simpa using h

/-! ## Reduction lemmas for the dispatch chain -/
/-- Reduction of the dispatch chain at opcode `0x00`. -/
theorem exec_op_00 (m : Machine) (h : m.cpu.pc < 65536) (hop : m.cpu.mem m.cpu.pc = 0x00) :
    executeInstructions m = (({ m with cpu := { m.cpu with pc := m.cpu.pc + 1 } } : Machine), Except.ok false) := by
  have hf := fetchByte_ok m (by omega)
  unfold executeInstructions
  rw [hf]
  dsimp only
  rw [if_pos hop]
  try rfl

/-- Reduction of the dispatch chain at opcode `0x01`. -/
theorem exec_op_01 (m : Machine) (h : m.cpu.pc + 1 < 65536) (hop : m.cpu.mem m.cpu.pc = 0x01) :
    executeInstructions m = liftCPU { m with cpu := { m.cpu with pc := m.cpu.pc + 2 } } (A_to_store ({ m with cpu := { m.cpu with pc := m.cpu.pc + 2 } } : Machine).cpu (m.cpu.mem (m.cpu.pc + 1))) := by
  have hf := fetchByte_ok m (by omega)
  unfold executeInstructions
  rw [hf]
  dsimp only
  rw [if_neg (show ¬ (m.cpu.mem m.cpu.pc = 0x00) by rw [hop]; decide)]
  rw [if_pos hop]
  rw [fetchByte_ok ({ m with cpu := { m.cpu with pc := m.cpu.pc + 1 } } : Machine) (by dsimp only; omega)]
  try dsimp only
  try rfl

/-- Reduction of the dispatch chain at opcode `0x02`. -/
theorem exec_op_02 (m : Machine) (h : m.cpu.pc + 1 < 65536) (hop : m.cpu.mem m.cpu.pc = 0x02) :
    executeInstructions m = liftCPU { m with cpu := { m.cpu with pc := m.cpu.pc + 2 } } (from_store_to_A ({ m with cpu := { m.cpu with pc := m.cpu.pc + 2 } } : Machine).cpu (m.cpu.mem (m.cpu.pc + 1))) := by
  have hf := fetchByte_ok m (by omega)
  unfold executeInstructions
  rw [hf]
  dsimp only
  rw [if_neg (show ¬ (m.cpu.mem m.cpu.pc = 0x00) by rw [hop]; decide)]
  rw [if_neg (show ¬ (m.cpu.mem m.cpu.pc = 0x01) by rw [hop]; decide)]
  rw [if_pos hop]
  rw [fetchByte_ok ({ m with cpu := { m.cpu with pc := m.cpu.pc + 1 } } : Machine) (by dsimp only; omega)]
  try dsimp only
  try rfl

/-- Reduction of the dispatch chain at opcode `0x03`. -/
theorem exec_op_03 (m : Machine) (h : m.cpu.pc + 1 < 65536) (hop : m.cpu.mem m.cpu.pc = 0x03) :
    executeInstructions m = liftCPU { m with cpu := { m.cpu with pc := m.cpu.pc + 2 } } (X_to_store ({ m with cpu := { m.cpu with pc := m.cpu.pc + 2 } } : Machine).cpu (m.cpu.mem (m.cpu.pc + 1))) := by
  have hf := fetchByte_ok m (by omega)
  unfold executeInstructions
  rw [hf]
  dsimp only
  rw [if_neg (show ¬ (m.cpu.mem m.cpu.pc = 0x00) by rw [hop]; decide)]
  rw [if_neg (show ¬ (m.cpu.mem m.cpu.pc = 0x01) by rw [hop]; decide)]
  rw [if_neg (show ¬ (m.cpu.mem m.cpu.pc = 0x02) by rw [hop]; decide)]
  rw [if_pos hop]
  rw [fetchByte_ok ({ m with cpu := { m.cpu with pc := m.cpu.pc + 1 } } : Machine) (by dsimp only; omega)]
  try dsimp only
  try rfl

/-- Reduction of the dispatch chain at opcode `0x04`. -/
theorem exec_op_04 (m : Machine) (h : m.cpu.pc + 1 < 65536) (hop : m.cpu.mem m.cpu.pc = 0x04) :
    executeInstructions m = liftCPU { m with cpu := { m.cpu with pc := m.cpu.pc + 2 } } (from_store_to_X ({ m with cpu := { m.cpu with pc := m.cpu.pc + 2 } } : Machine).cpu (m.cpu.mem (m.cpu.pc + 1))) := by
  have hf := fetchByte_ok m (by omega)
  unfold executeInstructions
  rw [hf]
  dsimp only
  rw [if_neg (show ¬ (m.cpu.mem m.cpu.pc = 0x00) by rw [hop]; decide)]
  rw [if_neg (show ¬ (m.cpu.mem m.cpu.pc = 0x01) by rw [hop]; decide)]
  rw [if_neg (show ¬ (m.cpu.mem m.cpu.pc = 0x02) by rw [hop]; decide)]
  rw [if_neg (show ¬ (m.cpu.mem m.cpu.pc = 0x03) by rw [hop]; decide)]
  rw [if_pos hop]
  rw [fetchByte_ok ({ m with cpu := { m.cpu with pc := m.cpu.pc + 1 } } : Machine) (by dsimp only; omega)]
  try dsimp only
  try rfl

/-- Reduction of the dispatch chain at opcode `0x05`. -/
theorem exec_op_05 (m : Machine) (h : m.cpu.pc < 65536) (hop : m.cpu.mem m.cpu.pc = 0x05) :
    executeInstructions m = (from_console_to_A { m with cpu := { m.cpu with pc := m.cpu.pc + 1 } }, Except.ok true) := by
  have hf := fetchByte_ok m (by omega)
  unfold executeInstructions
  rw [hf]
  dsimp only
  rw [if_neg (show ¬ (m.cpu.mem m.cpu.pc = 0x00) by rw [hop]; decide)]
  rw [if_neg (show ¬ (m.cpu.mem m.cpu.pc = 0x01) by rw [hop]; decide)]
  rw [if_neg (show ¬ (m.cpu.mem m.cpu.pc = 0x02) by rw [hop]; decide)]
  rw [if_neg (show ¬ (m.cpu.mem m.cpu.pc = 0x03) by rw [hop]; decide)]
  rw [if_neg (show ¬ (m.cpu.mem m.cpu.pc = 0x04) by rw [hop]; decide)]
  rw [if_pos hop]
  try rfl

/-- Reduction of the dispatch chain at opcode `0x06`. -/
theorem exec_op_06 (m : Machine) (h : m.cpu.pc + 1 < 65536) (hop : m.cpu.mem m.cpu.pc = 0x06) :
    executeInstructions m = ((Output_to_console { m with cpu := { m.cpu with pc := m.cpu.pc + 2 } } (m.cpu.mem (m.cpu.pc + 1))).1, (Output_to_console { m with cpu := { m.cpu with pc := m.cpu.pc + 2 } } (m.cpu.mem (m.cpu.pc + 1))).2.map fun _ => true) := by
  have hf := fetchByte_ok m (by omega)
  unfold executeInstructions
  rw [hf]
  dsimp only
  rw [if_neg (show ¬ (m.cpu.mem m.cpu.pc = 0x00) by rw [hop]; decide)]
  rw [if_neg (show ¬ (m.cpu.mem m.cpu.pc = 0x01) by rw [hop]; decide)]
  rw [if_neg (show ¬ (m.cpu.mem m.cpu.pc = 0x02) by rw [hop]; decide)]
  rw [if_neg (show ¬ (m.cpu.mem m.cpu.pc = 0x03) by rw [hop]; decide)]
  rw [if_neg (show ¬ (m.cpu.mem m.cpu.pc = 0x04) by rw [hop]; decide)]
  rw [if_neg (show ¬ (m.cpu.mem m.cpu.pc = 0x05) by rw [hop]; decide)]
  rw [if_pos hop]
  rw [fetchByte_ok ({ m with cpu := { m.cpu with pc := m.cpu.pc + 1 } } : Machine) (by dsimp only; omega)]
  try dsimp only
  try rfl

/-- Reduction of the dispatch chain at opcode `0x07`. -/
theorem exec_op_07 (m : Machine) (h : m.cpu.pc + 1 < 65536) (hop : m.cpu.mem m.cpu.pc = 0x07) :
    executeInstructions m = liftCPU { m with cpu := { m.cpu with pc := m.cpu.pc + 2 } } (MUL ({ m with cpu := { m.cpu with pc := m.cpu.pc + 2 } } : Machine).cpu (m.cpu.mem (m.cpu.pc + 1))) := by
  have hf := fetchByte_ok m (by omega)
  unfold executeInstructions
  rw [hf]
  dsimp only
  rw [if_neg (show ¬ (m.cpu.mem m.cpu.pc = 0x00) by rw [hop]; decide)]
  rw [if_neg (show ¬ (m.cpu.mem m.cpu.pc = 0x01) by rw [hop]; decide)]
  rw [if_neg (show ¬ (m.cpu.mem m.cpu.pc = 0x02) by rw [hop]; decide)]
  rw [if_neg (show ¬ (m.cpu.mem m.cpu.pc = 0x03) by rw [hop]; decide)]
  rw [if_neg (show ¬ (m.cpu.mem m.cpu.pc = 0x04) by rw [hop]; decide)]
  rw [if_neg (show ¬ (m.cpu.mem m.cpu.pc = 0x05) by rw [hop]; decide)]
  rw [if_neg (show ¬ (m.cpu.mem m.cpu.pc = 0x06) by rw [hop]; decide)]
  rw [if_pos hop]
  rw [fetchByte_ok ({ m with cpu := { m.cpu with pc := m.cpu.pc + 1 } } : Machine) (by dsimp only; omega)]
  try dsimp only
  try rfl

/-- Reduction of the dispatch chain at opcode `0x08`. -/
theorem exec_op_08 (m : Machine) (h : m.cpu.pc < 65536) (hop : m.cpu.mem m.cpu.pc = 0x08) :
    executeInstructions m = ({ ({ m with cpu := { m.cpu with pc := m.cpu.pc + 1 } } : Machine) with cpu := XTA ({ m with cpu := { m.cpu with pc := m.cpu.pc + 1 } } : Machine).cpu }, .ok true) := by
  have hf := fetchByte_ok m (by omega)
  unfold executeInstructions
  rw [hf]
  dsimp only
  rw [if_neg (show ¬ (m.cpu.mem m.cpu.pc = 0x00) by rw [hop]; decide)]
  rw [if_neg (show ¬ (m.cpu.mem m.cpu.pc = 0x01) by rw [hop]; decide)]
  rw [if_neg (show ¬ (m.cpu.mem m.cpu.pc = 0x02) by rw [hop]; decide)]
  rw [if_neg (show ¬ (m.cpu.mem m.cpu.pc = 0x03) by rw [hop]; decide)]
  rw [if_neg (show ¬ (m.cpu.mem m.cpu.pc = 0x04) by rw [hop]; decide)]
  rw [if_neg (show ¬ (m.cpu.mem m.cpu.pc = 0x05) by rw [hop]; decide)]
  rw [if_neg (show ¬ (m.cpu.mem m.cpu.pc = 0x06) by rw [hop]; decide)]
  rw [if_neg (show ¬ (m.cpu.mem m.cpu.pc = 0x07) by rw [hop]; decide)]
  rw [if_pos hop]
  try rfl

/-- Reduction of the dispatch chain at opcode `0x09`. -/
theorem exec_op_09 (m : Machine) (h : m.cpu.pc + 2 < 65536) (hop : m.cpu.mem m.cpu.pc = 0x09) :
    executeInstructions m = ({ ({ m with cpu := { m.cpu with pc := m.cpu.pc + 3 } } : Machine) with cpu := ORA ({ m with cpu := { m.cpu with pc := m.cpu.pc + 3 } } : Machine).cpu (m.cpu.mem (m.cpu.pc + 1) ||| (m.cpu.mem (m.cpu.pc + 2) <<< 8)) }, .ok true) := by
  have hf := fetchByte_ok m (by omega)
  unfold executeInstructions
  rw [hf]
  dsimp only
  rw [if_neg (show ¬ (m.cpu.mem m.cpu.pc = 0x00) by rw [hop]; decide)]
  rw [if_neg (show ¬ (m.cpu.mem m.cpu.pc = 0x01) by rw [hop]; decide)]
  rw [if_neg (show ¬ (m.cpu.mem m.cpu.pc = 0x02) by rw [hop]; decide)]
  rw [if_neg (show ¬ (m.cpu.mem m.cpu.pc = 0x03) by rw [hop]; decide)]
  rw [if_neg (show ¬ (m.cpu.mem m.cpu.pc = 0x04) by rw [hop]; decide)]
  rw [if_neg (show ¬ (m.cpu.mem m.cpu.pc = 0x05) by rw [hop]; decide)]
  rw [if_neg (show ¬ (m.cpu.mem m.cpu.pc = 0x06) by rw [hop]; decide)]
  rw [if_neg (show ¬ (m.cpu.mem m.cpu.pc = 0x07) by rw [hop]; decide)]
  rw [if_neg (show ¬ (m.cpu.mem m.cpu.pc = 0x08) by rw [hop]; decide)]
  rw [if_pos hop]
  rw [fetchWord_ok ({ m with cpu := { m.cpu with pc := m.cpu.pc + 1 } } : Machine) (by dsimp only; omega)]
  try dsimp only
  try rfl

/-- Reduction of the dispatch chain at opcode `0x10`. -/
theorem exec_op_10 (m : Machine) (h : m.cpu.pc < 65536) (hop : m.cpu.mem m.cpu.pc = 0x10) :
    executeInstructions m = liftCPU { m with cpu := { m.cpu with pc := m.cpu.pc + 1 } } (branch ({ m with cpu := { m.cpu with pc := m.cpu.pc + 1 } } : Machine).cpu (!(getFlag m.cpu.p NEGATIVE))) := by
  have hf := fetchByte_ok m (by omega)
  unfold executeInstructions
  rw [hf]
  dsimp only
  rw [if_neg (show ¬ (m.cpu.mem m.cpu.pc = 0x00) by rw [hop]; decide)]
  rw [if_neg (show ¬ (m.cpu.mem m.cpu.pc = 0x01) by rw [hop]; decide)]
  rw [if_neg (show ¬ (m.cpu.mem m.cpu.pc = 0x02) by rw [hop]; decide)]
  rw [if_neg (show ¬ (m.cpu.mem m.cpu.pc = 0x03) by rw [hop]; decide)]
  rw [if_neg (show ¬ (m.cpu.mem m.cpu.pc = 0x04) by rw [hop]; decide)]
  rw [if_neg (show ¬ (m.cpu.mem m.cpu.pc = 0x05) by rw [hop]; decide)]
  rw [if_neg (show ¬ (m.cpu.mem m.cpu.pc = 0x06) by rw [hop]; decide)]
  rw [if_neg (show ¬ (m.cpu.mem m.cpu.pc = 0x07) by rw [hop]; decide)]
  rw [if_neg (show ¬ (m.cpu.mem m.cpu.pc = 0x08) by rw [hop]; decide)]
  rw [if_neg (show ¬ (m.cpu.mem m.cpu.pc = 0x09) by rw [hop]; decide)]
  rw [if_pos hop]
  try rfl

/-- Reduction of the dispatch chain at opcode `0x14`. -/
theorem exec_op_14 (m : Machine) (h : m.cpu.pc + 1 < 65536) (hop : m.cpu.mem m.cpu.pc = 0x14) :
    executeInstructions m = liftCPU { m with cpu := { m.cpu with pc := m.cpu.pc + 2 } } (MULM ({ m with cpu := { m.cpu with pc := m.cpu.pc + 2 } } : Machine).cpu (m.cpu.mem (m.cpu.pc + 1))) := by
  have hf := fetchByte_ok m (by omega)
  unfold executeInstructions
  rw [hf]
  dsimp only
  rw [if_neg (show ¬ (m.cpu.mem m.cpu.pc = 0x00) by rw [hop]; decide)]
  rw [if_neg (show ¬ (m.cpu.mem m.cpu.pc = 0x01) by rw [hop]; decide)]
  rw [if_neg (show ¬ (m.cpu.mem m.cpu.pc = 0x02) by rw [hop]; decide)]
  rw [if_neg (show ¬ (m.cpu.mem m.cpu.pc = 0x03) by rw [hop]; decide)]
  rw [if_neg (show ¬ (m.cpu.mem m.cpu.pc = 0x04) by rw [hop]; decide)]
  rw [if_neg (show ¬ (m.cpu.mem m.cpu.pc = 0x05) by rw [hop]; decide)]
  rw [if_neg (show ¬ (m.cpu.mem m.cpu.pc = 0x06) by rw [hop]; decide)]
  rw [if_neg (show ¬ (m.cpu.mem m.cpu.pc = 0x07) by rw [hop]; decide)]
  rw [if_neg (show ¬ (m.cpu.mem m.cpu.pc = 0x08) by rw [hop]; decide)]
  rw [if_neg (show ¬ (m.cpu.mem m.cpu.pc = 0x09) by rw [hop]; decide)]
  rw [if_neg (show ¬ (m.cpu.mem m.cpu.pc = 0x10) by rw [hop]; decide)]
  rw [if_pos hop]
  rw [fetchByte_ok ({ m with cpu := { m.cpu with pc := m.cpu.pc + 1 } } : Machine) (by dsimp only; omega)]
  try dsimp only
  try rfl

/-- Reduction of the dispatch chain at opcode `0x18`. -/
theorem exec_op_18 (m : Machine) (h : m.cpu.pc < 65536) (hop : m.cpu.mem m.cpu.pc = 0x18) :
    executeInstructions m = ({ ({ m with cpu := { m.cpu with pc := m.cpu.pc + 1 } } : Machine) with cpu := CLC ({ m with cpu := { m.cpu with pc := m.cpu.pc + 1 } } : Machine).cpu }, .ok true) := by
  have hf := fetchByte_ok m (by omega)
  unfold executeInstructions
  rw [hf]
  dsimp only
  rw [if_neg (show ¬ (m.cpu.mem m.cpu.pc = 0x00) by rw [hop]; decide)]
  rw [if_neg (show ¬ (m.cpu.mem m.cpu.pc = 0x01) by rw [hop]; decide)]
  rw [if_neg (show ¬ (m.cpu.mem m.cpu.pc = 0x02) by rw [hop]; decide)]
  rw [if_neg (show ¬ (m.cpu.mem m.cpu.pc = 0x03) by rw [hop]; decide)]
  rw [if_neg (show ¬ (m.cpu.mem m.cpu.pc = 0x04) by rw [hop]; decide)]
  rw [if_neg (show ¬ (m.cpu.mem m.cpu.pc = 0x05) by rw [hop]; decide)]
  rw [if_neg (show ¬ (m.cpu.mem m.cpu.pc = 0x06) by rw [hop]; decide)]
  rw [if_neg (show ¬ (m.cpu.mem m.cpu.pc = 0x07) by rw [hop]; decide)]
  rw [if_neg (show ¬ (m.cpu.mem m.cpu.pc = 0x08) by rw [hop]; decide)]
  rw [if_neg (show ¬ (m.cpu.mem m.cpu.pc = 0x09) by rw [hop]; decide)]
  rw [if_neg (show ¬ (m.cpu.mem m.cpu.pc = 0x10) by rw [hop]; decide)]
  rw [if_neg (show ¬ (m.cpu.mem m.cpu.pc = 0x14) by rw [hop]; decide)]
  rw [if_pos hop]
  try rfl

/-- Reduction of the dispatch chain at opcode `0x29`. -/
theorem exec_op_29 (m : Machine) (h : m.cpu.pc + 2 < 65536) (hop : m.cpu.mem m.cpu.pc = 0x29) :
    executeInstructions m = ({ ({ m with cpu := { m.cpu with pc := m.cpu.pc + 3 } } : Machine) with cpu := AND ({ m with cpu := { m.cpu with pc := m.cpu.pc + 3 } } : Machine).cpu (m.cpu.mem (m.cpu.pc + 1) ||| (m.cpu.mem (m.cpu.pc + 2) <<< 8)) }, .ok true) := by
  have hf := fetchByte_ok m (by omega)
  unfold executeInstructions
  rw [hf]
  dsimp only
  rw [if_neg (show ¬ (m.cpu.mem m.cpu.pc = 0x00) by rw [hop]; decide)]
  rw [if_neg (show ¬ (m.cpu.mem m.cpu.pc = 0x01) by rw [hop]; decide)]
  rw [if_neg (show ¬ (m.cpu.mem m.cpu.pc = 0x02) by rw [hop]; decide)]
  rw [if_neg (show ¬ (m.cpu.mem m.cpu.pc = 0x03) by rw [hop]; decide)]
  rw [if_neg (show ¬ (m.cpu.mem m.cpu.pc = 0x04) by rw [hop]; decide)]
  rw [if_neg (show ¬ (m.cpu.mem m.cpu.pc = 0x05) by rw [hop]; decide)]
  rw [if_neg (show ¬ (m.cpu.mem m.cpu.pc = 0x06) by rw [hop]; decide)]
  rw [if_neg (show ¬ (m.cpu.mem m.cpu.pc = 0x07) by rw [hop]; decide)]
  rw [if_neg (show ¬ (m.cpu.mem m.cpu.pc = 0x08) by rw [hop]; decide)]
  rw [if_neg (show ¬ (m.cpu.mem m.cpu.pc = 0x09) by rw [hop]; decide)]
  rw [if_neg (show ¬ (m.cpu.mem m.cpu.pc = 0x10) by rw [hop]; decide)]
  rw [if_neg (show ¬ (m.cpu.mem m.cpu.pc = 0x14) by rw [hop]; decide)]
  rw [if_neg (show ¬ (m.cpu.mem m.cpu.pc = 0x18) by rw [hop]; decide)]
  rw [if_pos hop]
  rw [fetchWord_ok ({ m with cpu := { m.cpu with pc := m.cpu.pc + 1 } } : Machine) (by dsimp only; omega)]
  try dsimp only
  try rfl

/-- Reduction of the dispatch chain at opcode `0x30`. -/
theorem exec_op_30 (m : Machine) (h : m.cpu.pc < 65536) (hop : m.cpu.mem m.cpu.pc = 0x30) :
    executeInstructions m = liftCPU { m with cpu := { m.cpu with pc := m.cpu.pc + 1 } } (branch ({ m with cpu := { m.cpu with pc := m.cpu.pc + 1 } } : Machine).cpu (getFlag m.cpu.p NEGATIVE)) := by
  have hf := fetchByte_ok m (by omega)
  unfold executeInstructions
  rw [hf]
  dsimp only
  rw [if_neg (show ¬ (m.cpu.mem m.cpu.pc = 0x00) by rw [hop]; decide)]
  rw [if_neg (show ¬ (m.cpu.mem m.cpu.pc = 0x01) by rw [hop]; decide)]
  rw [if_neg (show ¬ (m.cpu.mem m.cpu.pc = 0x02) by rw [hop]; decide)]
  rw [if_neg (show ¬ (m.cpu.mem m.cpu.pc = 0x03) by rw [hop]; decide)]
  rw [if_neg (show ¬ (m.cpu.mem m.cpu.pc = 0x04) by rw [hop]; decide)]
  rw [if_neg (show ¬ (m.cpu.mem m.cpu.pc = 0x05) by rw [hop]; decide)]
  rw [if_neg (show ¬ (m.cpu.mem m.cpu.pc = 0x06) by rw [hop]; decide)]
  rw [if_neg (show ¬ (m.cpu.mem m.cpu.pc = 0x07) by rw [hop]; decide)]
  rw [if_neg (show ¬ (m.cpu.mem m.cpu.pc = 0x08) by rw [hop]; decide)]
  rw [if_neg (show ¬ (m.cpu.mem m.cpu.pc = 0x09) by rw [hop]; decide)]
  rw [if_neg (show ¬ (m.cpu.mem m.cpu.pc = 0x10) by rw [hop]; decide)]
  rw [if_neg (show ¬ (m.cpu.mem m.cpu.pc = 0x14) by rw [hop]; decide)]
  rw [if_neg (show ¬ (m.cpu.mem m.cpu.pc = 0x18) by rw [hop]; decide)]
  rw [if_neg (show ¬ (m.cpu.mem m.cpu.pc = 0x29) by rw [hop]; decide)]
  rw [if_pos hop]
  try rfl

/-- Reduction of the dispatch chain at opcode `0x49`. -/
theorem exec_op_49 (m : Machine) (h : m.cpu.pc + 2 < 65536) (hop : m.cpu.mem m.cpu.pc = 0x49) :
    executeInstructions m = ({ ({ m with cpu := { m.cpu with pc := m.cpu.pc + 3 } } : Machine) with cpu := EOR ({ m with cpu := { m.cpu with pc := m.cpu.pc + 3 } } : Machine).cpu (m.cpu.mem (m.cpu.pc + 1) ||| (m.cpu.mem (m.cpu.pc + 2) <<< 8)) }, .ok true) := by
  have hf := fetchByte_ok m (by omega)
  unfold executeInstructions
  rw [hf]
  dsimp only
  rw [if_neg (show ¬ (m.cpu.mem m.cpu.pc = 0x00) by rw [hop]; decide)]
  rw [if_neg (show ¬ (m.cpu.mem m.cpu.pc = 0x01) by rw [hop]; decide)]
  rw [if_neg (show ¬ (m.cpu.mem m.cpu.pc = 0x02) by rw [hop]; decide)]
  rw [if_neg (show ¬ (m.cpu.mem m.cpu.pc = 0x03) by rw [hop]; decide)]
  rw [if_neg (show ¬ (m.cpu.mem m.cpu.pc = 0x04) by rw [hop]; decide)]
  rw [if_neg (show ¬ (m.cpu.mem m.cpu.pc = 0x05) by rw [hop]; decide)]
  rw [if_neg (show ¬ (m.cpu.mem m.cpu.pc = 0x06) by rw [hop]; decide)]
  rw [if_neg (show ¬ (m.cpu.mem m.cpu.pc = 0x07) by rw [hop]; decide)]
  rw [if_neg (show ¬ (m.cpu.mem m.cpu.pc = 0x08) by rw [hop]; decide)]
  rw [if_neg (show ¬ (m.cpu.mem m.cpu.pc = 0x09) by rw [hop]; decide)]
  rw [if_neg (show ¬ (m.cpu.mem m.cpu.pc = 0x10) by rw [hop]; decide)]
  rw [if_neg (show ¬ (m.cpu.mem m.cpu.pc = 0x14) by rw [hop]; decide)]
  rw [if_neg (show ¬ (m.cpu.mem m.cpu.pc = 0x18) by rw [hop]; decide)]
  rw [if_neg (show ¬ (m.cpu.mem m.cpu.pc = 0x29) by rw [hop]; decide)]
  rw [if_neg (show ¬ (m.cpu.mem m.cpu.pc = 0x30) by rw [hop]; decide)]
  rw [if_pos hop]
  rw [fetchWord_ok ({ m with cpu := { m.cpu with pc := m.cpu.pc + 1 } } : Machine) (by dsimp only; omega)]
  try dsimp only
  try rfl

/-- Reduction of the dispatch chain at opcode `0x4C`. -/
theorem exec_op_4C (m : Machine) (h : m.cpu.pc + 2 < 65536) (hop : m.cpu.mem m.cpu.pc = 0x4C) :
    executeInstructions m = ({ m with cpu := { m.cpu with pc := (m.cpu.mem (m.cpu.pc + 2) <<< 8) ||| m.cpu.mem (m.cpu.pc + 1), cycles := m.cpu.cycles + 3 } }, Except.ok true) := by
  have hf := fetchByte_ok m (by omega)
  unfold executeInstructions
  rw [hf]
  dsimp only
  rw [if_neg (show ¬ (m.cpu.mem m.cpu.pc = 0x00) by rw [hop]; decide)]
  rw [if_neg (show ¬ (m.cpu.mem m.cpu.pc = 0x01) by rw [hop]; decide)]
  rw [if_neg (show ¬ (m.cpu.mem m.cpu.pc = 0x02) by rw [hop]; decide)]
  rw [if_neg (show ¬ (m.cpu.mem m.cpu.pc = 0x03) by rw [hop]; decide)]
  rw [if_neg (show ¬ (m.cpu.mem m.cpu.pc = 0x04) by rw [hop]; decide)]
  rw [if_neg (show ¬ (m.cpu.mem m.cpu.pc = 0x05) by rw [hop]; decide)]
  rw [if_neg (show ¬ (m.cpu.mem m.cpu.pc = 0x06) by rw [hop]; decide)]
  rw [if_neg (show ¬ (m.cpu.mem m.cpu.pc = 0x07) by rw [hop]; decide)]
  rw [if_neg (show ¬ (m.cpu.mem m.cpu.pc = 0x08) by rw [hop]; decide)]
  rw [if_neg (show ¬ (m.cpu.mem m.cpu.pc = 0x09) by rw [hop]; decide)]
  rw [if_neg (show ¬ (m.cpu.mem m.cpu.pc = 0x10) by rw [hop]; decide)]
  rw [if_neg (show ¬ (m.cpu.mem m.cpu.pc = 0x14) by rw [hop]; decide)]
  rw [if_neg (show ¬ (m.cpu.mem m.cpu.pc = 0x18) by rw [hop]; decide)]
  rw [if_neg (show ¬ (m.cpu.mem m.cpu.pc = 0x29) by rw [hop]; decide)]
  rw [if_neg (show ¬ (m.cpu.mem m.cpu.pc = 0x30) by rw [hop]; decide)]
  rw [if_neg (show ¬ (m.cpu.mem m.cpu.pc = 0x49) by rw [hop]; decide)]
  rw [if_pos hop]
  rw [readMem_ok m.cpu.mem (m.cpu.pc + 1) (by omega)]
  dsimp only
  rw [readMem_ok m.cpu.mem (m.cpu.pc + 2) (by omega)]
  try dsimp only
  try rfl

/-- Reduction of the dispatch chain at opcode `0x50`. -/
theorem exec_op_50 (m : Machine) (h : m.cpu.pc < 65536) (hop : m.cpu.mem m.cpu.pc = 0x50) :
    executeInstructions m = liftCPU { m with cpu := { m.cpu with pc := m.cpu.pc + 1 } } (branch ({ m with cpu := { m.cpu with pc := m.cpu.pc + 1 } } : Machine).cpu (!(getFlag m.cpu.p OVERFLOW))) := by
  have hf := fetchByte_ok m (by omega)
  unfold executeInstructions
  rw [hf]
  dsimp only
  rw [if_neg (show ¬ (m.cpu.mem m.cpu.pc = 0x00) by rw [hop]; decide)]
  rw [if_neg (show ¬ (m.cpu.mem m.cpu.pc = 0x01) by rw [hop]; decide)]
  rw [if_neg (show ¬ (m.cpu.mem m.cpu.pc = 0x02) by rw [hop]; decide)]
  rw [if_neg (show ¬ (m.cpu.mem m.cpu.pc = 0x03) by rw [hop]; decide)]
  rw [if_neg (show ¬ (m.cpu.mem m.cpu.pc = 0x04) by rw [hop]; decide)]
  rw [if_neg (show ¬ (m.cpu.mem m.cpu.pc = 0x05) by rw [hop]; decide)]
  rw [if_neg (show ¬ (m.cpu.mem m.cpu.pc = 0x06) by rw [hop]; decide)]
  rw [if_neg (show ¬ (m.cpu.mem m.cpu.pc = 0x07) by rw [hop]; decide)]
  rw [if_neg (show ¬ (m.cpu.mem m.cpu.pc = 0x08) by rw [hop]; decide)]
  rw [if_neg (show ¬ (m.cpu.mem m.cpu.pc = 0x09) by rw [hop]; decide)]
  rw [if_neg (show ¬ (m.cpu.mem m.cpu.pc = 0x10) by rw [hop]; decide)]
  rw [if_neg (show ¬ (m.cpu.mem m.cpu.pc = 0x14) by rw [hop]; decide)]
  rw [if_neg (show ¬ (m.cpu.mem m.cpu.pc = 0x18) by rw [hop]; decide)]
  rw [if_neg (show ¬ (m.cpu.mem m.cpu.pc = 0x29) by rw [hop]; decide)]
  rw [if_neg (show ¬ (m.cpu.mem m.cpu.pc = 0x30) by rw [hop]; decide)]
  rw [if_neg (show ¬ (m.cpu.mem m.cpu.pc = 0x49) by rw [hop]; decide)]
  rw [if_neg (show ¬ (m.cpu.mem m.cpu.pc = 0x4C) by rw [hop]; decide)]
  rw [if_pos hop]
  try rfl

/-- Reduction of the dispatch chain at opcode `0x69`. -/
theorem exec_op_69 (m : Machine) (h : m.cpu.pc + 2 < 65536) (hop : m.cpu.mem m.cpu.pc = 0x69) :
    executeInstructions m = ({ ({ m with cpu := { m.cpu with pc := m.cpu.pc + 3 } } : Machine) with cpu := ADC ({ m with cpu := { m.cpu with pc := m.cpu.pc + 3 } } : Machine).cpu (m.cpu.mem (m.cpu.pc + 1) ||| (m.cpu.mem (m.cpu.pc + 2) <<< 8)) }, .ok true) := by
  have hf := fetchByte_ok m (by omega)
  unfold executeInstructions
  rw [hf]
  dsimp only
  rw [if_neg (show ¬ (m.cpu.mem m.cpu.pc = 0x00) by rw [hop]; decide)]
  rw [if_neg (show ¬ (m.cpu.mem m.cpu.pc = 0x01) by rw [hop]; decide)]
  rw [if_neg (show ¬ (m.cpu.mem m.cpu.pc = 0x02) by rw [hop]; decide)]
  rw [if_neg (show ¬ (m.cpu.mem m.cpu.pc = 0x03) by rw [hop]; decide)]
  rw [if_neg (show ¬ (m.cpu.mem m.cpu.pc = 0x04) by rw [hop]; decide)]
  rw [if_neg (show ¬ (m.cpu.mem m.cpu.pc = 0x05) by rw [hop]; decide)]
  rw [if_neg (show ¬ (m.cpu.mem m.cpu.pc = 0x06) by rw [hop]; decide)]
  rw [if_neg (show ¬ (m.cpu.mem m.cpu.pc = 0x07) by rw [hop]; decide)]
  rw [if_neg (show ¬ (m.cpu.mem m.cpu.pc = 0x08) by rw [hop]; decide)]
  rw [if_neg (show ¬ (m.cpu.mem m.cpu.pc = 0x09) by rw [hop]; decide)]
  rw [if_neg (show ¬ (m.cpu.mem m.cpu.pc = 0x10) by rw [hop]; decide)]
  rw [if_neg (show ¬ (m.cpu.mem m.cpu.pc = 0x14) by rw [hop]; decide)]
  rw [if_neg (show ¬ (m.cpu.mem m.cpu.pc = 0x18) by rw [hop]; decide)]
  rw [if_neg (show ¬ (m.cpu.mem m.cpu.pc = 0x29) by rw [hop]; decide)]
  rw [if_neg (show ¬ (m.cpu.mem m.cpu.pc = 0x30) by rw [hop]; decide)]
  rw [if_neg (show ¬ (m.cpu.mem m.cpu.pc = 0x49) by rw [hop]; decide)]
  rw [if_neg (show ¬ (m.cpu.mem m.cpu.pc = 0x4C) by rw [hop]; decide)]
  rw [if_neg (show ¬ (m.cpu.mem m.cpu.pc = 0x50) by rw [hop]; decide)]
  rw [if_pos hop]
  rw [fetchWord_ok ({ m with cpu := { m.cpu with pc := m.cpu.pc + 1 } } : Machine) (by dsimp only; omega)]
  try dsimp only
  try rfl

/-- Reduction of the dispatch chain at opcode `0x70`. -/
theorem exec_op_70 (m : Machine) (h : m.cpu.pc < 65536) (hop : m.cpu.mem m.cpu.pc = 0x70) :
    executeInstructions m = liftCPU { m with cpu := { m.cpu with pc := m.cpu.pc + 1 } } (branch ({ m with cpu := { m.cpu with pc := m.cpu.pc + 1 } } : Machine).cpu (getFlag m.cpu.p OVERFLOW)) := by
  have hf := fetchByte_ok m (by omega)
  unfold executeInstructions
  rw [hf]
  dsimp only
  rw [if_neg (show ¬ (m.cpu.mem m.cpu.pc = 0x00) by rw [hop]; decide)]
  rw [if_neg (show ¬ (m.cpu.mem m.cpu.pc = 0x01) by rw [hop]; decide)]
  rw [if_neg (show ¬ (m.cpu.mem m.cpu.pc = 0x02) by rw [hop]; decide)]
  rw [if_neg (show ¬ (m.cpu.mem m.cpu.pc = 0x03) by rw [hop]; decide)]
  rw [if_neg (show ¬ (m.cpu.mem m.cpu.pc = 0x04) by rw [hop]; decide)]
  rw [if_neg (show ¬ (m.cpu.mem m.cpu.pc = 0x05) by rw [hop]; decide)]
  rw [if_neg (show ¬ (m.cpu.mem m.cpu.pc = 0x06) by rw [hop]; decide)]
  rw [if_neg (show ¬ (m.cpu.mem m.cpu.pc = 0x07) by rw [hop]; decide)]
  rw [if_neg (show ¬ (m.cpu.mem m.cpu.pc = 0x08) by rw [hop]; decide)]
  rw [if_neg (show ¬ (m.cpu.mem m.cpu.pc = 0x09) by rw [hop]; decide)]
  rw [if_neg (show ¬ (m.cpu.mem m.cpu.pc = 0x10) by rw [hop]; decide)]
  rw [if_neg (show ¬ (m.cpu.mem m.cpu.pc = 0x14) by rw [hop]; decide)]
  rw [if_neg (show ¬ (m.cpu.mem m.cpu.pc = 0x18) by rw [hop]; decide)]
  rw [if_neg (show ¬ (m.cpu.mem m.cpu.pc = 0x29) by rw [hop]; decide)]
  rw [if_neg (show ¬ (m.cpu.mem m.cpu.pc = 0x30) by rw [hop]; decide)]
  rw [if_neg (show ¬ (m.cpu.mem m.cpu.pc = 0x49) by rw [hop]; decide)]
  rw [if_neg (show ¬ (m.cpu.mem m.cpu.pc = 0x4C) by rw [hop]; decide)]
  rw [if_neg (show ¬ (m.cpu.mem m.cpu.pc = 0x50) by rw [hop]; decide)]
  rw [if_neg (show ¬ (m.cpu.mem m.cpu.pc = 0x69) by rw [hop]; decide)]
  rw [if_pos hop]
  try rfl

/-- Reduction of the dispatch chain at opcode `0x90`. -/
theorem exec_op_90 (m : Machine) (h : m.cpu.pc < 65536) (hop : m.cpu.mem m.cpu.pc = 0x90) :
    executeInstructions m = liftCPU { m with cpu := { m.cpu with pc := m.cpu.pc + 1 } } (branch ({ m with cpu := { m.cpu with pc := m.cpu.pc + 1 } } : Machine).cpu (!(getFlag m.cpu.p CARRY))) := by
  have hf := fetchByte_ok m (by omega)
  unfold executeInstructions
  rw [hf]
  dsimp only
  rw [if_neg (show ¬ (m.cpu.mem m.cpu.pc = 0x00) by rw [hop]; decide)]
  rw [if_neg (show ¬ (m.cpu.mem m.cpu.pc = 0x01) by rw [hop]; decide)]
  rw [if_neg (show ¬ (m.cpu.mem m.cpu.pc = 0x02) by rw [hop]; decide)]
  rw [if_neg (show ¬ (m.cpu.mem m.cpu.pc = 0x03) by rw [hop]; decide)]
  rw [if_neg (show ¬ (m.cpu.mem m.cpu.pc = 0x04) by rw [hop]; decide)]
  rw [if_neg (show ¬ (m.cpu.mem m.cpu.pc = 0x05) by rw [hop]; decide)]
  rw [if_neg (show ¬ (m.cpu.mem m.cpu.pc = 0x06) by rw [hop]; decide)]
  rw [if_neg (show ¬ (m.cpu.mem m.cpu.pc = 0x07) by rw [hop]; decide)]
  rw [if_neg (show ¬ (m.cpu.mem m.cpu.pc = 0x08) by rw [hop]; decide)]
  rw [if_neg (show ¬ (m.cpu.mem m.cpu.pc = 0x09) by rw [hop]; decide)]
  rw [if_neg (show ¬ (m.cpu.mem m.cpu.pc = 0x10) by rw [hop]; decide)]
  rw [if_neg (show ¬ (m.cpu.mem m.cpu.pc = 0x14) by rw [hop]; decide)]
  rw [if_neg (show ¬ (m.cpu.mem m.cpu.pc = 0x18) by rw [hop]; decide)]
  rw [if_neg (show ¬ (m.cpu.mem m.cpu.pc = 0x29) by rw [hop]; decide)]
  rw [if_neg (show ¬ (m.cpu.mem m.cpu.pc = 0x30) by rw [hop]; decide)]
  rw [if_neg (show ¬ (m.cpu.mem m.cpu.pc = 0x49) by rw [hop]; decide)]
  rw [if_neg (show ¬ (m.cpu.mem m.cpu.pc = 0x4C) by rw [hop]; decide)]
  rw [if_neg (show ¬ (m.cpu.mem m.cpu.pc = 0x50) by rw [hop]; decide)]
  rw [if_neg (show ¬ (m.cpu.mem m.cpu.pc = 0x69) by rw [hop]; decide)]
  rw [if_neg (show ¬ (m.cpu.mem m.cpu.pc = 0x70) by rw [hop]; decide)]
  rw [if_pos hop]
  try rfl

/-- Reduction of the dispatch chain at opcode `0xA0`. -/
theorem exec_op_A0 (m : Machine) (h : m.cpu.pc + 2 < 65536) (hop : m.cpu.mem m.cpu.pc = 0xA0) :
    executeInstructions m = ({ ({ m with cpu := { m.cpu with pc := m.cpu.pc + 3 } } : Machine) with cpu := LDY ({ m with cpu := { m.cpu with pc := m.cpu.pc + 3 } } : Machine).cpu (m.cpu.mem (m.cpu.pc + 1) ||| (m.cpu.mem (m.cpu.pc + 2) <<< 8)) }, .ok true) := by
  have hf := fetchByte_ok m (by omega)
  unfold executeInstructions
  rw [hf]
  dsimp only
  rw [if_neg (show ¬ (m.cpu.mem m.cpu.pc = 0x00) by rw [hop]; decide)]
  rw [if_neg (show ¬ (m.cpu.mem m.cpu.pc = 0x01) by rw [hop]; decide)]
  rw [if_neg (show ¬ (m.cpu.mem m.cpu.pc = 0x02) by rw [hop]; decide)]
  rw [if_neg (show ¬ (m.cpu.mem m.cpu.pc = 0x03) by rw [hop]; decide)]
  rw [if_neg (show ¬ (m.cpu.mem m.cpu.pc = 0x04) by rw [hop]; decide)]
  rw [if_neg (show ¬ (m.cpu.mem m.cpu.pc = 0x05) by rw [hop]; decide)]
  rw [if_neg (show ¬ (m.cpu.mem m.cpu.pc = 0x06) by rw [hop]; decide)]
  rw [if_neg (show ¬ (m.cpu.mem m.cpu.pc = 0x07) by rw [hop]; decide)]
  rw [if_neg (show ¬ (m.cpu.mem m.cpu.pc = 0x08) by rw [hop]; decide)]
  rw [if_neg (show ¬ (m.cpu.mem m.cpu.pc = 0x09) by rw [hop]; decide)]
  rw [if_neg (show ¬ (m.cpu.mem m.cpu.pc = 0x10) by rw [hop]; decide)]
  rw [if_neg (show ¬ (m.cpu.mem m.cpu.pc = 0x14) by rw [hop]; decide)]
  rw [if_neg (show ¬ (m.cpu.mem m.cpu.pc = 0x18) by rw [hop]; decide)]
  rw [if_neg (show ¬ (m.cpu.mem m.cpu.pc = 0x29) by rw [hop]; decide)]
  rw [if_neg (show ¬ (m.cpu.mem m.cpu.pc = 0x30) by rw [hop]; decide)]
  rw [if_neg (show ¬ (m.cpu.mem m.cpu.pc = 0x49) by rw [hop]; decide)]
  rw [if_neg (show ¬ (m.cpu.mem m.cpu.pc = 0x4C) by rw [hop]; decide)]
  rw [if_neg (show ¬ (m.cpu.mem m.cpu.pc = 0x50) by rw [hop]; decide)]
  rw [if_neg (show ¬ (m.cpu.mem m.cpu.pc = 0x69) by rw [hop]; decide)]
  rw [if_neg (show ¬ (m.cpu.mem m.cpu.pc = 0x70) by rw [hop]; decide)]
  rw [if_neg (show ¬ (m.cpu.mem m.cpu.pc = 0x90) by rw [hop]; decide)]
  rw [if_pos hop]
  rw [fetchWord_ok ({ m with cpu := { m.cpu with pc := m.cpu.pc + 1 } } : Machine) (by dsimp only; omega)]
  try dsimp only
  try rfl

/-- Reduction of the dispatch chain at opcode `0xA2`. -/
theorem exec_op_A2 (m : Machine) (h : m.cpu.pc + 2 < 65536) (hop : m.cpu.mem m.cpu.pc = 0xA2) :
    executeInstructions m = ({ ({ m with cpu := { m.cpu with pc := m.cpu.pc + 3 } } : Machine) with cpu := LDX ({ m with cpu := { m.cpu with pc := m.cpu.pc + 3 } } : Machine).cpu (m.cpu.mem (m.cpu.pc + 1) ||| (m.cpu.mem (m.cpu.pc + 2) <<< 8)) }, .ok true) := by
  have hf := fetchByte_ok m (by omega)
  unfold executeInstructions
  rw [hf]
  dsimp only
  rw [if_neg (show ¬ (m.cpu.mem m.cpu.pc = 0x00) by rw [hop]; decide)]
  rw [if_neg (show ¬ (m.cpu.mem m.cpu.pc = 0x01) by rw [hop]; decide)]
  rw [if_neg (show ¬ (m.cpu.mem m.cpu.pc = 0x02) by rw [hop]; decide)]
  rw [if_neg (show ¬ (m.cpu.mem m.cpu.pc = 0x03) by rw [hop]; decide)]
  rw [if_neg (show ¬ (m.cpu.mem m.cpu.pc = 0x04) by rw [hop]; decide)]
  rw [if_neg (show ¬ (m.cpu.mem m.cpu.pc = 0x05) by rw [hop]; decide)]
  rw [if_neg (show ¬ (m.cpu.mem m.cpu.pc = 0x06) by rw [hop]; decide)]
  rw [if_neg (show ¬ (m.cpu.mem m.cpu.pc = 0x07) by rw [hop]; decide)]
  rw [if_neg (show ¬ (m.cpu.mem m.cpu.pc = 0x08) by rw [hop]; decide)]
  rw [if_neg (show ¬ (m.cpu.mem m.cpu.pc = 0x09) by rw [hop]; decide)]
  rw [if_neg (show ¬ (m.cpu.mem m.cpu.pc = 0x10) by rw [hop]; decide)]
  rw [if_neg (show ¬ (m.cpu.mem m.cpu.pc = 0x14) by rw [hop]; decide)]
  rw [if_neg (show ¬ (m.cpu.mem m.cpu.pc = 0x18) by rw [hop]; decide)]
  rw [if_neg (show ¬ (m.cpu.mem m.cpu.pc = 0x29) by rw [hop]; decide)]
  rw [if_neg (show ¬ (m.cpu.mem m.cpu.pc = 0x30) by rw [hop]; decide)]
  rw [if_neg (show ¬ (m.cpu.mem m.cpu.pc = 0x49) by rw [hop]; decide)]
  rw [if_neg (show ¬ (m.cpu.mem m.cpu.pc = 0x4C) by rw [hop]; decide)]
  rw [if_neg (show ¬ (m.cpu.mem m.cpu.pc = 0x50) by rw [hop]; decide)]
  rw [if_neg (show ¬ (m.cpu.mem m.cpu.pc = 0x69) by rw [hop]; decide)]
  rw [if_neg (show ¬ (m.cpu.mem m.cpu.pc = 0x70) by rw [hop]; decide)]
  rw [if_neg (show ¬ (m.cpu.mem m.cpu.pc = 0x90) by rw [hop]; decide)]
  rw [if_neg (show ¬ (m.cpu.mem m.cpu.pc = 0xA0) by rw [hop]; decide)]
  rw [if_pos hop]
  rw [fetchWord_ok ({ m with cpu := { m.cpu with pc := m.cpu.pc + 1 } } : Machine) (by dsimp only; omega)]
  try dsimp only
  try rfl

/-- Reduction of the dispatch chain at opcode `0xA9`. -/
theorem exec_op_A9 (m : Machine) (h : m.cpu.pc + 2 < 65536) (hop : m.cpu.mem m.cpu.pc = 0xA9) :
    executeInstructions m = ({ ({ m with cpu := { m.cpu with pc := m.cpu.pc + 3 } } : Machine) with cpu := LDA ({ m with cpu := { m.cpu with pc := m.cpu.pc + 3 } } : Machine).cpu (m.cpu.mem (m.cpu.pc + 1) ||| (m.cpu.mem (m.cpu.pc + 2) <<< 8)) }, .ok true) := by
  have hf := fetchByte_ok m (by omega)
  unfold executeInstructions
  rw [hf]
  dsimp only
  rw [if_neg (show ¬ (m.cpu.mem m.cpu.pc = 0x00) by rw [hop]; decide)]
  rw [if_neg (show ¬ (m.cpu.mem m.cpu.pc = 0x01) by rw [hop]; decide)]
  rw [if_neg (show ¬ (m.cpu.mem m.cpu.pc = 0x02) by rw [hop]; decide)]
  rw [if_neg (show ¬ (m.cpu.mem m.cpu.pc = 0x03) by rw [hop]; decide)]
  rw [if_neg (show ¬ (m.cpu.mem m.cpu.pc = 0x04) by rw [hop]; decide)]
  rw [if_neg (show ¬ (m.cpu.mem m.cpu.pc = 0x05) by rw [hop]; decide)]
  rw [if_neg (show ¬ (m.cpu.mem m.cpu.pc = 0x06) by rw [hop]; decide)]
  rw [if_neg (show ¬ (m.cpu.mem m.cpu.pc = 0x07) by rw [hop]; decide)]
  rw [if_neg (show ¬ (m.cpu.mem m.cpu.pc = 0x08) by rw [hop]; decide)]
  rw [if_neg (show ¬ (m.cpu.mem m.cpu.pc = 0x09) by rw [hop]; decide)]
  rw [if_neg (show ¬ (m.cpu.mem m.cpu.pc = 0x10) by rw [hop]; decide)]
  rw [if_neg (show ¬ (m.cpu.mem m.cpu.pc = 0x14) by rw [hop]; decide)]
  rw [if_neg (show ¬ (m.cpu.mem m.cpu.pc = 0x18) by rw [hop]; decide)]
  rw [if_neg (show ¬ (m.cpu.mem m.cpu.pc = 0x29) by rw [hop]; decide)]
  rw [if_neg (show ¬ (m.cpu.mem m.cpu.pc = 0x30) by rw [hop]; decide)]
  rw [if_neg (show ¬ (m.cpu.mem m.cpu.pc = 0x49) by rw [hop]; decide)]
  rw [if_neg (show ¬ (m.cpu.mem m.cpu.pc = 0x4C) by rw [hop]; decide)]
  rw [if_neg (show ¬ (m.cpu.mem m.cpu.pc = 0x50) by rw [hop]; decide)]
  rw [if_neg (show ¬ (m.cpu.mem m.cpu.pc = 0x69) by rw [hop]; decide)]
  rw [if_neg (show ¬ (m.cpu.mem m.cpu.pc = 0x70) by rw [hop]; decide)]
  rw [if_neg (show ¬ (m.cpu.mem m.cpu.pc = 0x90) by rw [hop]; decide)]
  rw [if_neg (show ¬ (m.cpu.mem m.cpu.pc = 0xA0) by rw [hop]; decide)]
  rw [if_neg (show ¬ (m.cpu.mem m.cpu.pc = 0xA2) by rw [hop]; decide)]
  rw [if_pos hop]
  rw [fetchWord_ok ({ m with cpu := { m.cpu with pc := m.cpu.pc + 1 } } : Machine) (by dsimp only; omega)]
  try dsimp only
  try rfl

/-- Reduction of the dispatch chain at opcode `0xAA`. -/
theorem exec_op_AA (m : Machine) (h : m.cpu.pc < 65536) (hop : m.cpu.mem m.cpu.pc = 0xAA) :
    executeInstructions m = ({ ({ m with cpu := { m.cpu with pc := m.cpu.pc + 1 } } : Machine) with cpu := TAX ({ m with cpu := { m.cpu with pc := m.cpu.pc + 1 } } : Machine).cpu }, .ok true) := by
  have hf := fetchByte_ok m (by omega)
  unfold executeInstructions
  rw [hf]
  dsimp only
  rw [if_neg (show ¬ (m.cpu.mem m.cpu.pc = 0x00) by rw [hop]; decide)]
  rw [if_neg (show ¬ (m.cpu.mem m.cpu.pc = 0x01) by rw [hop]; decide)]
  rw [if_neg (show ¬ (m.cpu.mem m.cpu.pc = 0x02) by rw [hop]; decide)]
  rw [if_neg (show ¬ (m.cpu.mem m.cpu.pc = 0x03) by rw [hop]; decide)]
  rw [if_neg (show ¬ (m.cpu.mem m.cpu.pc = 0x04) by rw [hop]; decide)]
  rw [if_neg (show ¬ (m.cpu.mem m.cpu.pc = 0x05) by rw [hop]; decide)]
  rw [if_neg (show ¬ (m.cpu.mem m.cpu.pc = 0x06) by rw [hop]; decide)]
  rw [if_neg (show ¬ (m.cpu.mem m.cpu.pc = 0x07) by rw [hop]; decide)]
  rw [if_neg (show ¬ (m.cpu.mem m.cpu.pc = 0x08) by rw [hop]; decide)]
  rw [if_neg (show ¬ (m.cpu.mem m.cpu.pc = 0x09) by rw [hop]; decide)]
  rw [if_neg (show ¬ (m.cpu.mem m.cpu.pc = 0x10) by rw [hop]; decide)]
  rw [if_neg (show ¬ (m.cpu.mem m.cpu.pc = 0x14) by rw [hop]; decide)]
  rw [if_neg (show ¬ (m.cpu.mem m.cpu.pc = 0x18) by rw [hop]; decide)]
  rw [if_neg (show ¬ (m.cpu.mem m.cpu.pc = 0x29) by rw [hop]; decide)]
  rw [if_neg (show ¬ (m.cpu.mem m.cpu.pc = 0x30) by rw [hop]; decide)]
  rw [if_neg (show ¬ (m.cpu.mem m.cpu.pc = 0x49) by rw [hop]; decide)]
  rw [if_neg (show ¬ (m.cpu.mem m.cpu.pc = 0x4C) by rw [hop]; decide)]
  rw [if_neg (show ¬ (m.cpu.mem m.cpu.pc = 0x50) by rw [hop]; decide)]
  rw [if_neg (show ¬ (m.cpu.mem m.cpu.pc = 0x69) by rw [hop]; decide)]
  rw [if_neg (show ¬ (m.cpu.mem m.cpu.pc = 0x70) by rw [hop]; decide)]
  rw [if_neg (show ¬ (m.cpu.mem m.cpu.pc = 0x90) by rw [hop]; decide)]
  rw [if_neg (show ¬ (m.cpu.mem m.cpu.pc = 0xA0) by rw [hop]; decide)]
  rw [if_neg (show ¬ (m.cpu.mem m.cpu.pc = 0xA2) by rw [hop]; decide)]
  rw [if_neg (show ¬ (m.cpu.mem m.cpu.pc = 0xA9) by rw [hop]; decide)]
  rw [if_pos hop]
  try rfl

/-- Reduction of the dispatch chain at opcode `0xB0`. -/
theorem exec_op_B0 (m : Machine) (h : m.cpu.pc < 65536) (hop : m.cpu.mem m.cpu.pc = 0xB0) :
    executeInstructions m = liftCPU { m with cpu := { m.cpu with pc := m.cpu.pc + 1 } } (branch ({ m with cpu := { m.cpu with pc := m.cpu.pc + 1 } } : Machine).cpu (getFlag m.cpu.p CARRY)) := by
  have hf := fetchByte_ok m (by omega)
  unfold executeInstructions
  rw [hf]
  dsimp only
  rw [if_neg (show ¬ (m.cpu.mem m.cpu.pc = 0x00) by rw [hop]; decide)]
  rw [if_neg (show ¬ (m.cpu.mem m.cpu.pc = 0x01) by rw [hop]; decide)]
  rw [if_neg (show ¬ (m.cpu.mem m.cpu.pc = 0x02) by rw [hop]; decide)]
  rw [if_neg (show ¬ (m.cpu.mem m.cpu.pc = 0x03) by rw [hop]; decide)]
  rw [if_neg (show ¬ (m.cpu.mem m.cpu.pc = 0x04) by rw [hop]; decide)]
  rw [if_neg (show ¬ (m.cpu.mem m.cpu.pc = 0x05) by rw [hop]; decide)]
  rw [if_neg (show ¬ (m.cpu.mem m.cpu.pc = 0x06) by rw [hop]; decide)]
  rw [if_neg (show ¬ (m.cpu.mem m.cpu.pc = 0x07) by rw [hop]; decide)]
  rw [if_neg (show ¬ (m.cpu.mem m.cpu.pc = 0x08) by rw [hop]; decide)]
  rw [if_neg (show ¬ (m.cpu.mem m.cpu.pc = 0x09) by rw [hop]; decide)]
  rw [if_neg (show ¬ (m.cpu.mem m.cpu.pc = 0x10) by rw [hop]; decide)]
  rw [if_neg (show ¬ (m.cpu.mem m.cpu.pc = 0x14) by rw [hop]; decide)]
  rw [if_neg (show ¬ (m.cpu.mem m.cpu.pc = 0x18) by rw [hop]; decide)]
  rw [if_neg (show ¬ (m.cpu.mem m.cpu.pc = 0x29) by rw [hop]; decide)]
  rw [if_neg (show ¬ (m.cpu.mem m.cpu.pc = 0x30) by rw [hop]; decide)]
  rw [if_neg (show ¬ (m.cpu.mem m.cpu.pc = 0x49) by rw [hop]; decide)]
  rw [if_neg (show ¬ (m.cpu.mem m.cpu.pc = 0x4C) by rw [hop]; decide)]
  rw [if_neg (show ¬ (m.cpu.mem m.cpu.pc = 0x50) by rw [hop]; decide)]
  rw [if_neg (show ¬ (m.cpu.mem m.cpu.pc = 0x69) by rw [hop]; decide)]
  rw [if_neg (show ¬ (m.cpu.mem m.cpu.pc = 0x70) by rw [hop]; decide)]
  rw [if_neg (show ¬ (m.cpu.mem m.cpu.pc = 0x90) by rw [hop]; decide)]
  rw [if_neg (show ¬ (m.cpu.mem m.cpu.pc = 0xA0) by rw [hop]; decide)]
  rw [if_neg (show ¬ (m.cpu.mem m.cpu.pc = 0xA2) by rw [hop]; decide)]
  rw [if_neg (show ¬ (m.cpu.mem m.cpu.pc = 0xA9) by rw [hop]; decide)]
  rw [if_neg (show ¬ (m.cpu.mem m.cpu.pc = 0xAA) by rw [hop]; decide)]
  rw [if_pos hop]
  try rfl

/-- Reduction of the dispatch chain at opcode `0xC9`. -/
theorem exec_op_C9 (m : Machine) (h : m.cpu.pc + 2 < 65536) (hop : m.cpu.mem m.cpu.pc = 0xC9) :
    executeInstructions m = ({ ({ m with cpu := { m.cpu with pc := m.cpu.pc + 3 } } : Machine) with cpu := CMP ({ m with cpu := { m.cpu with pc := m.cpu.pc + 3 } } : Machine).cpu (m.cpu.mem (m.cpu.pc + 1) ||| (m.cpu.mem (m.cpu.pc + 2) <<< 8)) }, .ok true) := by
  have hf := fetchByte_ok m (by omega)
  unfold executeInstructions
  rw [hf]
  dsimp only
  rw [if_neg (show ¬ (m.cpu.mem m.cpu.pc = 0x00) by rw [hop]; decide)]
  rw [if_neg (show ¬ (m.cpu.mem m.cpu.pc = 0x01) by rw [hop]; decide)]
  rw [if_neg (show ¬ (m.cpu.mem m.cpu.pc = 0x02) by rw [hop]; decide)]
  rw [if_neg (show ¬ (m.cpu.mem m.cpu.pc = 0x03) by rw [hop]; decide)]
  rw [if_neg (show ¬ (m.cpu.mem m.cpu.pc = 0x04) by rw [hop]; decide)]
  rw [if_neg (show ¬ (m.cpu.mem m.cpu.pc = 0x05) by rw [hop]; decide)]
  rw [if_neg (show ¬ (m.cpu.mem m.cpu.pc = 0x06) by rw [hop]; decide)]
  rw [if_neg (show ¬ (m.cpu.mem m.cpu.pc = 0x07) by rw [hop]; decide)]
  rw [if_neg (show ¬ (m.cpu.mem m.cpu.pc = 0x08) by rw [hop]; decide)]
  rw [if_neg (show ¬ (m.cpu.mem m.cpu.pc = 0x09) by rw [hop]; decide)]
  rw [if_neg (show ¬ (m.cpu.mem m.cpu.pc = 0x10) by rw [hop]; decide)]
  rw [if_neg (show ¬ (m.cpu.mem m.cpu.pc = 0x14) by rw [hop]; decide)]
  rw [if_neg (show ¬ (m.cpu.mem m.cpu.pc = 0x18) by rw [hop]; decide)]
  rw [if_neg (show ¬ (m.cpu.mem m.cpu.pc = 0x29) by rw [hop]; decide)]
  rw [if_neg (show ¬ (m.cpu.mem m.cpu.pc = 0x30) by rw [hop]; decide)]
  rw [if_neg (show ¬ (m.cpu.mem m.cpu.pc = 0x49) by rw [hop]; decide)]
  rw [if_neg (show ¬ (m.cpu.mem m.cpu.pc = 0x4C) by rw [hop]; decide)]
  rw [if_neg (show ¬ (m.cpu.mem m.cpu.pc = 0x50) by rw [hop]; decide)]
  rw [if_neg (show ¬ (m.cpu.mem m.cpu.pc = 0x69) by rw [hop]; decide)]
  rw [if_neg (show ¬ (m.cpu.mem m.cpu.pc = 0x70) by rw [hop]; decide)]
  rw [if_neg (show ¬ (m.cpu.mem m.cpu.pc = 0x90) by rw [hop]; decide)]
  rw [if_neg (show ¬ (m.cpu.mem m.cpu.pc = 0xA0) by rw [hop]; decide)]
  rw [if_neg (show ¬ (m.cpu.mem m.cpu.pc = 0xA2) by rw [hop]; decide)]
  rw [if_neg (show ¬ (m.cpu.mem m.cpu.pc = 0xA9) by rw [hop]; decide)]
  rw [if_neg (show ¬ (m.cpu.mem m.cpu.pc = 0xAA) by rw [hop]; decide)]
  rw [if_neg (show ¬ (m.cpu.mem m.cpu.pc = 0xB0) by rw [hop]; decide)]
  rw [if_pos hop]
  rw [fetchWord_ok ({ m with cpu := { m.cpu with pc := m.cpu.pc + 1 } } : Machine) (by dsimp only; omega)]
  try dsimp only
  try rfl

/-- Reduction of the dispatch chain at opcode `0xCD`. -/
theorem exec_op_CD (m : Machine) (h : m.cpu.pc + 1 < 65536) (hop : m.cpu.mem m.cpu.pc = 0xCD) :
    executeInstructions m = liftCPU { m with cpu := { m.cpu with pc := m.cpu.pc + 2 } } (CMPC ({ m with cpu := { m.cpu with pc := m.cpu.pc + 2 } } : Machine).cpu (m.cpu.mem (m.cpu.pc + 1))) := by
  have hf := fetchByte_ok m (by omega)
  unfold executeInstructions
  rw [hf]
  dsimp only
  rw [if_neg (show ¬ (m.cpu.mem m.cpu.pc = 0x00) by rw [hop]; decide)]
  rw [if_neg (show ¬ (m.cpu.mem m.cpu.pc = 0x01) by rw [hop]; decide)]
  rw [if_neg (show ¬ (m.cpu.mem m.cpu.pc = 0x02) by rw [hop]; decide)]
  rw [if_neg (show ¬ (m.cpu.mem m.cpu.pc = 0x03) by rw [hop]; decide)]
  rw [if_neg (show ¬ (m.cpu.mem m.cpu.pc = 0x04) by rw [hop]; decide)]
  rw [if_neg (show ¬ (m.cpu.mem m.cpu.pc = 0x05) by rw [hop]; decide)]
  rw [if_neg (show ¬ (m.cpu.mem m.cpu.pc = 0x06) by rw [hop]; decide)]
  rw [if_neg (show ¬ (m.cpu.mem m.cpu.pc = 0x07) by rw [hop]; decide)]
  rw [if_neg (show ¬ (m.cpu.mem m.cpu.pc = 0x08) by rw [hop]; decide)]
  rw [if_neg (show ¬ (m.cpu.mem m.cpu.pc = 0x09) by rw [hop]; decide)]
  rw [if_neg (show ¬ (m.cpu.mem m.cpu.pc = 0x10) by rw [hop]; decide)]
  rw [if_neg (show ¬ (m.cpu.mem m.cpu.pc = 0x14) by rw [hop]; decide)]
  rw [if_neg (show ¬ (m.cpu.mem m.cpu.pc = 0x18) by rw [hop]; decide)]
  rw [if_neg (show ¬ (m.cpu.mem m.cpu.pc = 0x29) by rw [hop]; decide)]
  rw [if_neg (show ¬ (m.cpu.mem m.cpu.pc = 0x30) by rw [hop]; decide)]
  rw [if_neg (show ¬ (m.cpu.mem m.cpu.pc = 0x49) by rw [hop]; decide)]
  rw [if_neg (show ¬ (m.cpu.mem m.cpu.pc = 0x4C) by rw [hop]; decide)]
  rw [if_neg (show ¬ (m.cpu.mem m.cpu.pc = 0x50) by rw [hop]; decide)]
  rw [if_neg (show ¬ (m.cpu.mem m.cpu.pc = 0x69) by rw [hop]; decide)]
  rw [if_neg (show ¬ (m.cpu.mem m.cpu.pc = 0x70) by rw [hop]; decide)]
  rw [if_neg (show ¬ (m.cpu.mem m.cpu.pc = 0x90) by rw [hop]; decide)]
  rw [if_neg (show ¬ (m.cpu.mem m.cpu.pc = 0xA0) by rw [hop]; decide)]
  rw [if_neg (show ¬ (m.cpu.mem m.cpu.pc = 0xA2) by rw [hop]; decide)]
  rw [if_neg (show ¬ (m.cpu.mem m.cpu.pc = 0xA9) by rw [hop]; decide)]
  rw [if_neg (show ¬ (m.cpu.mem m.cpu.pc = 0xAA) by rw [hop]; decide)]
  rw [if_neg (show ¬ (m.cpu.mem m.cpu.pc = 0xB0) by rw [hop]; decide)]
  rw [if_neg (show ¬ (m.cpu.mem m.cpu.pc = 0xC9) by rw [hop]; decide)]
  rw [if_pos hop]
  rw [fetchByte_ok ({ m with cpu := { m.cpu with pc := m.cpu.pc + 1 } } : Machine) (by dsimp only; omega)]
  try dsimp only
  try rfl

/-- Reduction of the dispatch chain at opcode `0xD0`. -/
theorem exec_op_D0 (m : Machine) (h : m.cpu.pc < 65536) (hop : m.cpu.mem m.cpu.pc = 0xD0) :
    executeInstructions m = liftCPU { m with cpu := { m.cpu with pc := m.cpu.pc + 1 } } (branch ({ m with cpu := { m.cpu with pc := m.cpu.pc + 1 } } : Machine).cpu (!(getFlag m.cpu.p ZERO))) := by
  have hf := fetchByte_ok m (by omega)
  unfold executeInstructions
  rw [hf]
  dsimp only
  rw [if_neg (show ¬ (m.cpu.mem m.cpu.pc = 0x00) by rw [hop]; decide)]
  rw [if_neg (show ¬ (m.cpu.mem m.cpu.pc = 0x01) by rw [hop]; decide)]
  rw [if_neg (show ¬ (m.cpu.mem m.cpu.pc = 0x02) by rw [hop]; decide)]
  rw [if_neg (show ¬ (m.cpu.mem m.cpu.pc = 0x03) by rw [hop]; decide)]
  rw [if_neg (show ¬ (m.cpu.mem m.cpu.pc = 0x04) by rw [hop]; decide)]
  rw [if_neg (show ¬ (m.cpu.mem m.cpu.pc = 0x05) by rw [hop]; decide)]
  rw [if_neg (show ¬ (m.cpu.mem m.cpu.pc = 0x06) by rw [hop]; decide)]
  rw [if_neg (show ¬ (m.cpu.mem m.cpu.pc = 0x07) by rw [hop]; decide)]
  rw [if_neg (show ¬ (m.cpu.mem m.cpu.pc = 0x08) by rw [hop]; decide)]
  rw [if_neg (show ¬ (m.cpu.mem m.cpu.pc = 0x09) by rw [hop]; decide)]
  rw [if_neg (show ¬ (m.cpu.mem m.cpu.pc = 0x10) by rw [hop]; decide)]
  rw [if_neg (show ¬ (m.cpu.mem m.cpu.pc = 0x14) by rw [hop]; decide)]
  rw [if_neg (show ¬ (m.cpu.mem m.cpu.pc = 0x18) by rw [hop]; decide)]
  rw [if_neg (show ¬ (m.cpu.mem m.cpu.pc = 0x29) by rw [hop]; decide)]
  rw [if_neg (show ¬ (m.cpu.mem m.cpu.pc = 0x30) by rw [hop]; decide)]
  rw [if_neg (show ¬ (m.cpu.mem m.cpu.pc = 0x49) by rw [hop]; decide)]
  rw [if_neg (show ¬ (m.cpu.mem m.cpu.pc = 0x4C) by rw [hop]; decide)]
  rw [if_neg (show ¬ (m.cpu.mem m.cpu.pc = 0x50) by rw [hop]; decide)]
  rw [if_neg (show ¬ (m.cpu.mem m.cpu.pc = 0x69) by rw [hop]; decide)]
  rw [if_neg (show ¬ (m.cpu.mem m.cpu.pc = 0x70) by rw [hop]; decide)]
  rw [if_neg (show ¬ (m.cpu.mem m.cpu.pc = 0x90) by rw [hop]; decide)]
  rw [if_neg (show ¬ (m.cpu.mem m.cpu.pc = 0xA0) by rw [hop]; decide)]
  rw [if_neg (show ¬ (m.cpu.mem m.cpu.pc = 0xA2) by rw [hop]; decide)]
  rw [if_neg (show ¬ (m.cpu.mem m.cpu.pc = 0xA9) by rw [hop]; decide)]
  rw [if_neg (show ¬ (m.cpu.mem m.cpu.pc = 0xAA) by rw [hop]; decide)]
  rw [if_neg (show ¬ (m.cpu.mem m.cpu.pc = 0xB0) by rw [hop]; decide)]
  rw [if_neg (show ¬ (m.cpu.mem m.cpu.pc = 0xC9) by rw [hop]; decide)]
  rw [if_neg (show ¬ (m.cpu.mem m.cpu.pc = 0xCD) by rw [hop]; decide)]
  rw [if_pos hop]
  try rfl

/-- Reduction of the dispatch chain at opcode `0xE0`. -/
theorem exec_op_E0 (m : Machine) (h : m.cpu.pc + 2 < 65536) (hop : m.cpu.mem m.cpu.pc = 0xE0) :
    executeInstructions m = ({ ({ m with cpu := { m.cpu with pc := m.cpu.pc + 3 } } : Machine) with cpu := CPX ({ m with cpu := { m.cpu with pc := m.cpu.pc + 3 } } : Machine).cpu (m.cpu.mem (m.cpu.pc + 1) ||| (m.cpu.mem (m.cpu.pc + 2) <<< 8)) }, .ok true) := by
  have hf := fetchByte_ok m (by omega)
  unfold executeInstructions
  rw [hf]
  dsimp only
  rw [if_neg (show ¬ (m.cpu.mem m.cpu.pc = 0x00) by rw [hop]; decide)]
  rw [if_neg (show ¬ (m.cpu.mem m.cpu.pc = 0x01) by rw [hop]; decide)]
  rw [if_neg (show ¬ (m.cpu.mem m.cpu.pc = 0x02) by rw [hop]; decide)]
  rw [if_neg (show ¬ (m.cpu.mem m.cpu.pc = 0x03) by rw [hop]; decide)]
  rw [if_neg (show ¬ (m.cpu.mem m.cpu.pc = 0x04) by rw [hop]; decide)]
  rw [if_neg (show ¬ (m.cpu.mem m.cpu.pc = 0x05) by rw [hop]; decide)]
  rw [if_neg (show ¬ (m.cpu.mem m.cpu.pc = 0x06) by rw [hop]; decide)]
  rw [if_neg (show ¬ (m.cpu.mem m.cpu.pc = 0x07) by rw [hop]; decide)]
  rw [if_neg (show ¬ (m.cpu.mem m.cpu.pc = 0x08) by rw [hop]; decide)]
  rw [if_neg (show ¬ (m.cpu.mem m.cpu.pc = 0x09) by rw [hop]; decide)]
  rw [if_neg (show ¬ (m.cpu.mem m.cpu.pc = 0x10) by rw [hop]; decide)]
  rw [if_neg (show ¬ (m.cpu.mem m.cpu.pc = 0x14) by rw [hop]; decide)]
  rw [if_neg (show ¬ (m.cpu.mem m.cpu.pc = 0x18) by rw [hop]; decide)]
  rw [if_neg (show ¬ (m.cpu.mem m.cpu.pc = 0x29) by rw [hop]; decide)]
  rw [if_neg (show ¬ (m.cpu.mem m.cpu.pc = 0x30) by rw [hop]; decide)]
  rw [if_neg (show ¬ (m.cpu.mem m.cpu.pc = 0x49) by rw [hop]; decide)]
  rw [if_neg (show ¬ (m.cpu.mem m.cpu.pc = 0x4C) by rw [hop]; decide)]
  rw [if_neg (show ¬ (m.cpu.mem m.cpu.pc = 0x50) by rw [hop]; decide)]
  rw [if_neg (show ¬ (m.cpu.mem m.cpu.pc = 0x69) by rw [hop]; decide)]
  rw [if_neg (show ¬ (m.cpu.mem m.cpu.pc = 0x70) by rw [hop]; decide)]
  rw [if_neg (show ¬ (m.cpu.mem m.cpu.pc = 0x90) by rw [hop]; decide)]
  rw [if_neg (show ¬ (m.cpu.mem m.cpu.pc = 0xA0) by rw [hop]; decide)]
  rw [if_neg (show ¬ (m.cpu.mem m.cpu.pc = 0xA2) by rw [hop]; decide)]
  rw [if_neg (show ¬ (m.cpu.mem m.cpu.pc = 0xA9) by rw [hop]; decide)]
  rw [if_neg (show ¬ (m.cpu.mem m.cpu.pc = 0xAA) by rw [hop]; decide)]
  rw [if_neg (show ¬ (m.cpu.mem m.cpu.pc = 0xB0) by rw [hop]; decide)]
  rw [if_neg (show ¬ (m.cpu.mem m.cpu.pc = 0xC9) by rw [hop]; decide)]
  rw [if_neg (show ¬ (m.cpu.mem m.cpu.pc = 0xCD) by rw [hop]; decide)]
  rw [if_neg (show ¬ (m.cpu.mem m.cpu.pc = 0xD0) by rw [hop]; decide)]
  rw [if_pos hop]
  rw [fetchWord_ok ({ m with cpu := { m.cpu with pc := m.cpu.pc + 1 } } : Machine) (by dsimp only; omega)]
  try dsimp only
  try rfl

/-- Reduction of the dispatch chain at opcode `0xE9`. -/
theorem exec_op_E9 (m : Machine) (h : m.cpu.pc + 2 < 65536) (hop : m.cpu.mem m.cpu.pc = 0xE9) :
    executeInstructions m = ({ ({ m with cpu := { m.cpu with pc := m.cpu.pc + 3 } } : Machine) with cpu := SBC ({ m with cpu := { m.cpu with pc := m.cpu.pc + 3 } } : Machine).cpu (m.cpu.mem (m.cpu.pc + 1) ||| (m.cpu.mem (m.cpu.pc + 2) <<< 8)) }, .ok true) := by
  have hf := fetchByte_ok m (by omega)
  unfold executeInstructions
  rw [hf]
  dsimp only
  rw [if_neg (show ¬ (m.cpu.mem m.cpu.pc = 0x00) by rw [hop]; decide)]
  rw [if_neg (show ¬ (m.cpu.mem m.cpu.pc = 0x01) by rw [hop]; decide)]
  rw [if_neg (show ¬ (m.cpu.mem m.cpu.pc = 0x02) by rw [hop]; decide)]
  rw [if_neg (show ¬ (m.cpu.mem m.cpu.pc = 0x03) by rw [hop]; decide)]
  rw [if_neg (show ¬ (m.cpu.mem m.cpu.pc = 0x04) by rw [hop]; decide)]
  rw [if_neg (show ¬ (m.cpu.mem m.cpu.pc = 0x05) by rw [hop]; decide)]
  rw [if_neg (show ¬ (m.cpu.mem m.cpu.pc = 0x06) by rw [hop]; decide)]
  rw [if_neg (show ¬ (m.cpu.mem m.cpu.pc = 0x07) by rw [hop]; decide)]
  rw [if_neg (show ¬ (m.cpu.mem m.cpu.pc = 0x08) by rw [hop]; decide)]
  rw [if_neg (show ¬ (m.cpu.mem m.cpu.pc = 0x09) by rw [hop]; decide)]
  rw [if_neg (show ¬ (m.cpu.mem m.cpu.pc = 0x10) by rw [hop]; decide)]
  rw [if_neg (show ¬ (m.cpu.mem m.cpu.pc = 0x14) by rw [hop]; decide)]
  rw [if_neg (show ¬ (m.cpu.mem m.cpu.pc = 0x18) by rw [hop]; decide)]
  rw [if_neg (show ¬ (m.cpu.mem m.cpu.pc = 0x29) by rw [hop]; decide)]
  rw [if_neg (show ¬ (m.cpu.mem m.cpu.pc = 0x30) by rw [hop]; decide)]
  rw [if_neg (show ¬ (m.cpu.mem m.cpu.pc = 0x49) by rw [hop]; decide)]
  rw [if_neg (show ¬ (m.cpu.mem m.cpu.pc = 0x4C) by rw [hop]; decide)]
  rw [if_neg (show ¬ (m.cpu.mem m.cpu.pc = 0x50) by rw [hop]; decide)]
  rw [if_neg (show ¬ (m.cpu.mem m.cpu.pc = 0x69) by rw [hop]; decide)]
  rw [if_neg (show ¬ (m.cpu.mem m.cpu.pc = 0x70) by rw [hop]; decide)]
  rw [if_neg (show ¬ (m.cpu.mem m.cpu.pc = 0x90) by rw [hop]; decide)]
  rw [if_neg (show ¬ (m.cpu.mem m.cpu.pc = 0xA0) by rw [hop]; decide)]
  rw [if_neg (show ¬ (m.cpu.mem m.cpu.pc = 0xA2) by rw [hop]; decide)]
  rw [if_neg (show ¬ (m.cpu.mem m.cpu.pc = 0xA9) by rw [hop]; decide)]
  rw [if_neg (show ¬ (m.cpu.mem m.cpu.pc = 0xAA) by rw [hop]; decide)]
  rw [if_neg (show ¬ (m.cpu.mem m.cpu.pc = 0xB0) by rw [hop]; decide)]
  rw [if_neg (show ¬ (m.cpu.mem m.cpu.pc = 0xC9) by rw [hop]; decide)]
  rw [if_neg (show ¬ (m.cpu.mem m.cpu.pc = 0xCD) by rw [hop]; decide)]
  rw [if_neg (show ¬ (m.cpu.mem m.cpu.pc = 0xD0) by rw [hop]; decide)]
  rw [if_neg (show ¬ (m.cpu.mem m.cpu.pc = 0xE0) by rw [hop]; decide)]
  rw [if_pos hop]
  rw [fetchWord_ok ({ m with cpu := { m.cpu with pc := m.cpu.pc + 1 } } : Machine) (by dsimp only; omega)]
  try dsimp only
  try rfl

/-- Reduction of the dispatch chain at opcode `0xEA`. -/
theorem exec_op_EA (m : Machine) (h : m.cpu.pc < 65536) (hop : m.cpu.mem m.cpu.pc = 0xEA) :
    executeInstructions m = ({ ({ m with cpu := { m.cpu with pc := m.cpu.pc + 1 } } : Machine) with cpu := NOP ({ m with cpu := { m.cpu with pc := m.cpu.pc + 1 } } : Machine).cpu }, .ok true) := by
  have hf := fetchByte_ok m (by omega)
  unfold executeInstructions
  rw [hf]
  dsimp only
  rw [if_neg (show ¬ (m.cpu.mem m.cpu.pc = 0x00) by rw [hop]; decide)]
  rw [if_neg (show ¬ (m.cpu.mem m.cpu.pc = 0x01) by rw [hop]; decide)]
  rw [if_neg (show ¬ (m.cpu.mem m.cpu.pc = 0x02) by rw [hop]; decide)]
  rw [if_neg (show ¬ (m.cpu.mem m.cpu.pc = 0x03) by rw [hop]; decide)]
  rw [if_neg (show ¬ (m.cpu.mem m.cpu.pc = 0x04) by rw [hop]; decide)]
  rw [if_neg (show ¬ (m.cpu.mem m.cpu.pc = 0x05) by rw [hop]; decide)]
  rw [if_neg (show ¬ (m.cpu.mem m.cpu.pc = 0x06) by rw [hop]; decide)]
  rw [if_neg (show ¬ (m.cpu.mem m.cpu.pc = 0x07) by rw [hop]; decide)]
  rw [if_neg (show ¬ (m.cpu.mem m.cpu.pc = 0x08) by rw [hop]; decide)]
  rw [if_neg (show ¬ (m.cpu.mem m.cpu.pc = 0x09) by rw [hop]; decide)]
  rw [if_neg (show ¬ (m.cpu.mem m.cpu.pc = 0x10) by rw [hop]; decide)]
  rw [if_neg (show ¬ (m.cpu.mem m.cpu.pc = 0x14) by rw [hop]; decide)]
  rw [if_neg (show ¬ (m.cpu.mem m.cpu.pc = 0x18) by rw [hop]; decide)]
  rw [if_neg (show ¬ (m.cpu.mem m.cpu.pc = 0x29) by rw [hop]; decide)]
  rw [if_neg (show ¬ (m.cpu.mem m.cpu.pc = 0x30) by rw [hop]; decide)]
  rw [if_neg (show ¬ (m.cpu.mem m.cpu.pc = 0x49) by rw [hop]; decide)]
  rw [if_neg (show ¬ (m.cpu.mem m.cpu.pc = 0x4C) by rw [hop]; decide)]
  rw [if_neg (show ¬ (m.cpu.mem m.cpu.pc = 0x50) by rw [hop]; decide)]
  rw [if_neg (show ¬ (m.cpu.mem m.cpu.pc = 0x69) by rw [hop]; decide)]
  rw [if_neg (show ¬ (m.cpu.mem m.cpu.pc = 0x70) by rw [hop]; decide)]
  rw [if_neg (show ¬ (m.cpu.mem m.cpu.pc = 0x90) by rw [hop]; decide)]
  rw [if_neg (show ¬ (m.cpu.mem m.cpu.pc = 0xA0) by rw [hop]; decide)]
  rw [if_neg (show ¬ (m.cpu.mem m.cpu.pc = 0xA2) by rw [hop]; decide)]
  rw [if_neg (show ¬ (m.cpu.mem m.cpu.pc = 0xA9) by rw [hop]; decide)]
  rw [if_neg (show ¬ (m.cpu.mem m.cpu.pc = 0xAA) by rw [hop]; decide)]
  rw [if_neg (show ¬ (m.cpu.mem m.cpu.pc = 0xB0) by rw [hop]; decide)]
  rw [if_neg (show ¬ (m.cpu.mem m.cpu.pc = 0xC9) by rw [hop]; decide)]
  rw [if_neg (show ¬ (m.cpu.mem m.cpu.pc = 0xCD) by rw [hop]; decide)]
  rw [if_neg (show ¬ (m.cpu.mem m.cpu.pc = 0xD0) by rw [hop]; decide)]
  rw [if_neg (show ¬ (m.cpu.mem m.cpu.pc = 0xE0) by rw [hop]; decide)]
  rw [if_neg (show ¬ (m.cpu.mem m.cpu.pc = 0xE9) by rw [hop]; decide)]
  rw [if_pos hop]
  try rfl

/-- Reduction of the dispatch chain at opcode `0xF0`. -/
theorem exec_op_F0 (m : Machine) (h : m.cpu.pc < 65536) (hop : m.cpu.mem m.cpu.pc = 0xF0) :
    executeInstructions m = liftCPU { m with cpu := { m.cpu with pc := m.cpu.pc + 1 } } (branch ({ m with cpu := { m.cpu with pc := m.cpu.pc + 1 } } : Machine).cpu (getFlag m.cpu.p ZERO)) := by
  have hf := fetchByte_ok m (by omega)
  unfold executeInstructions
  rw [hf]
  dsimp only
  rw [if_neg (show ¬ (m.cpu.mem m.cpu.pc = 0x00) by rw [hop]; decide)]
  rw [if_neg (show ¬ (m.cpu.mem m.cpu.pc = 0x01) by rw [hop]; decide)]
  rw [if_neg (show ¬ (m.cpu.mem m.cpu.pc = 0x02) by rw [hop]; decide)]
  rw [if_neg (show ¬ (m.cpu.mem m.cpu.pc = 0x03) by rw [hop]; decide)]
  rw [if_neg (show ¬ (m.cpu.mem m.cpu.pc = 0x04) by rw [hop]; decide)]
  rw [if_neg (show ¬ (m.cpu.mem m.cpu.pc = 0x05) by rw [hop]; decide)]
  rw [if_neg (show ¬ (m.cpu.mem m.cpu.pc = 0x06) by rw [hop]; decide)]
  rw [if_neg (show ¬ (m.cpu.mem m.cpu.pc = 0x07) by rw [hop]; decide)]
  rw [if_neg (show ¬ (m.cpu.mem m.cpu.pc = 0x08) by rw [hop]; decide)]
  rw [if_neg (show ¬ (m.cpu.mem m.cpu.pc = 0x09) by rw [hop]; decide)]
  rw [if_neg (show ¬ (m.cpu.mem m.cpu.pc = 0x10) by rw [hop]; decide)]
  rw [if_neg (show ¬ (m.cpu.mem m.cpu.pc = 0x14) by rw [hop]; decide)]
  rw [if_neg (show ¬ (m.cpu.mem m.cpu.pc = 0x18) by rw [hop]; decide)]
  rw [if_neg (show ¬ (m.cpu.mem m.cpu.pc = 0x29) by rw [hop]; decide)]
  rw [if_neg (show ¬ (m.cpu.mem m.cpu.pc = 0x30) by rw [hop]; decide)]
  rw [if_neg (show ¬ (m.cpu.mem m.cpu.pc = 0x49) by rw [hop]; decide)]
  rw [if_neg (show ¬ (m.cpu.mem m.cpu.pc = 0x4C) by rw [hop]; decide)]
  rw [if_neg (show ¬ (m.cpu.mem m.cpu.pc = 0x50) by rw [hop]; decide)]
  rw [if_neg (show ¬ (m.cpu.mem m.cpu.pc = 0x69) by rw [hop]; decide)]
  rw [if_neg (show ¬ (m.cpu.mem m.cpu.pc = 0x70) by rw [hop]; decide)]
  rw [if_neg (show ¬ (m.cpu.mem m.cpu.pc = 0x90) by rw [hop]; decide)]
  rw [if_neg (show ¬ (m.cpu.mem m.cpu.pc = 0xA0) by rw [hop]; decide)]
  rw [if_neg (show ¬ (m.cpu.mem m.cpu.pc = 0xA2) by rw [hop]; decide)]
  rw [if_neg (show ¬ (m.cpu.mem m.cpu.pc = 0xA9) by rw [hop]; decide)]
  rw [if_neg (show ¬ (m.cpu.mem m.cpu.pc = 0xAA) by rw [hop]; decide)]
  rw [if_neg (show ¬ (m.cpu.mem m.cpu.pc = 0xB0) by rw [hop]; decide)]
  rw [if_neg (show ¬ (m.cpu.mem m.cpu.pc = 0xC9) by rw [hop]; decide)]
  rw [if_neg (show ¬ (m.cpu.mem m.cpu.pc = 0xCD) by rw [hop]; decide)]
  rw [if_neg (show ¬ (m.cpu.mem m.cpu.pc = 0xD0) by rw [hop]; decide)]
  rw [if_neg (show ¬ (m.cpu.mem m.cpu.pc = 0xE0) by rw [hop]; decide)]
  rw [if_neg (show ¬ (m.cpu.mem m.cpu.pc = 0xE9) by rw [hop]; decide)]
  rw [if_neg (show ¬ (m.cpu.mem m.cpu.pc = 0xEA) by rw [hop]; decide)]
  rw [if_pos hop]
  try rfl

/-- An opcode byte outside the dispatch map advances PC past the opcode and
raises `Unknown opcode`, leaving all other state untouched. -/
theorem executeInstructions_unknown (m : Machine) (h : m.cpu.pc < 65536)
    (hop : dispatchedOpcodes.contains (m.cpu.mem m.cpu.pc) = false) :
    executeInstructions m =
      ({ m with cpu := { m.cpu with pc := m.cpu.pc + 1 } },
       .error ("Unknown opcode " ++ toHex2 (m.cpu.mem m.cpu.pc))) := by
  have hne : ∀ k : Nat, dispatchedOpcodes.contains k = true → ¬ (m.cpu.mem m.cpu.pc = k) := by
    intro k hk heq
    rw [heq] at hop
    rw [hop] at hk
    exact Bool.noConfusion hk
  unfold executeInstructions
  rw [fetchByte_ok m h]
  dsimp only
  rw [if_neg (hne 0x00 (by decide))]
  rw [if_neg (hne 0x01 (by decide))]
  rw [if_neg (hne 0x02 (by decide))]
  rw [if_neg (hne 0x03 (by decide))]
  rw [if_neg (hne 0x04 (by decide))]
  rw [if_neg (hne 0x05 (by decide))]
  rw [if_neg (hne 0x06 (by decide))]
  rw [if_neg (hne 0x07 (by decide))]
  rw [if_neg (hne 0x08 (by decide))]
  rw [if_neg (hne 0x09 (by decide))]
  rw [if_neg (hne 0x10 (by decide))]
  rw [if_neg (hne 0x14 (by decide))]
  rw [if_neg (hne 0x18 (by decide))]
  rw [if_neg (hne 0x29 (by decide))]
  rw [if_neg (hne 0x30 (by decide))]
  rw [if_neg (hne 0x49 (by decide))]
  rw [if_neg (hne 0x4C (by decide))]
  rw [if_neg (hne 0x50 (by decide))]
  rw [if_neg (hne 0x69 (by decide))]
  rw [if_neg (hne 0x70 (by decide))]
  rw [if_neg (hne 0x90 (by decide))]
  rw [if_neg (hne 0xA0 (by decide))]
  rw [if_neg (hne 0xA2 (by decide))]
  rw [if_neg (hne 0xA9 (by decide))]
  rw [if_neg (hne 0xAA (by decide))]
  rw [if_neg (hne 0xB0 (by decide))]
  rw [if_neg (hne 0xC9 (by decide))]
  rw [if_neg (hne 0xCD (by decide))]
  rw [if_neg (hne 0xD0 (by decide))]
  rw [if_neg (hne 0xE0 (by decide))]
  rw [if_neg (hne 0xE9 (by decide))]
  rw [if_neg (hne 0xEA (by decide))]
  rw [if_neg (hne 0xF0 (by decide))]
  try rfl

/-- Closed form of `branch` from an in-range PC. -/
theorem branch_result (c : CPU6502) (cond : Bool) (h : c.pc < 65536) :
    branch c cond =
      (if cond then
        { c with pc := pyMask16 (((c.pc + 1 : Nat) : Int) + byteToSigned (c.mem c.pc)), cycles := c.cycles + 3 }
       else { c with pc := c.pc + 1, cycles := c.cycles + 2 }, .ok ()) := by
  unfold branch
  rw [readMem_ok c.mem c.pc h]
  cases cond <;> rfl

/-- A dispatched conditional branch: existence form with the post-step PC and
cycle count. -/
theorem branch_step_tail (m : Machine) (cond : Bool) (h : m.cpu.pc + 1 < 65536)
    (hexec : executeInstructions m =
      liftCPU { m with cpu := { m.cpu with pc := m.cpu.pc + 1 } }
        (branch ({ m with cpu := { m.cpu with pc := m.cpu.pc + 1 } } : Machine).cpu cond)) :
    ∃ m2, executeInstructions m = (m2, .ok true) ∧
      m2.cpu.pc = (if cond then
          pyMask16 ((m.cpu.pc : Int) + 2 + byteToSigned (m.cpu.mem (m.cpu.pc + 1)))
        else m.cpu.pc + 2) ∧
      m2.cpu.cycles = m.cpu.cycles + (if cond then 3 else 2) := by
  rw [branch_result _ cond (by dsimp only; omega)] at hexec
  cases cond with
  | true =>
    rw [if_pos rfl] at hexec
    unfold liftCPU at hexec
    dsimp only at hexec
    refine ⟨_, hexec, ?_, ?_⟩
    · dsimp only
      rw [if_pos rfl]
      try congr 1
      try push_cast
      try ring
    · dsimp only
      try rw [if_pos rfl]
  | false =>
    rw [if_neg (by simp)] at hexec
    unfold liftCPU at hexec
    dsimp only at hexec
    refine ⟨_, hexec, ?_, ?_⟩
    · dsimp only
      rw [if_neg (by simp)]
      try omega
    · dsimp only
      rw [if_neg (by simp)]

/-- C6: for every conditional branch step whose operand byte is the signed
8-bit offset o: if the branch condition holds, PC becomes
(post-operand PC + o) mod 65536 and the cycle counter increases by exactly
3; if the condition does not hold, PC stays at the post-operand value
(PC + 2) and the cycle counter increases by exactly 2; the offset is
relative to the address immediately after the offset byte. -/
theorem C6_conditional_branch (m : Machine) (cond : Bool)
    (h : m.cpu.pc + 1 < 65536)
    (hc : branchCondition (m.cpu.mem m.cpu.pc) m.cpu = some cond) :
    ∃ m2, executeInstructions m = (m2, .ok true) ∧
      m2.cpu.pc = (if cond then
          pyMask16 ((m.cpu.pc : Int) + 2 + byteToSigned (m.cpu.mem (m.cpu.pc + 1)))
        else m.cpu.pc + 2) ∧
      m2.cpu.cycles = m.cpu.cycles + (if cond then 3 else 2) := by
  unfold branchCondition at hc
  by_cases e0 : m.cpu.mem m.cpu.pc = 0x10
  · rw [if_pos e0] at hc
    obtain rfl : (!(getFlag m.cpu.p NEGATIVE)) = cond := Option.some.inj hc
    exact branch_step_tail m _ h (exec_op_10 m (by omega) e0)
  · rw [if_neg e0] at hc
    by_cases e1 : m.cpu.mem m.cpu.pc = 0x30
    · rw [if_pos e1] at hc
      obtain rfl : (getFlag m.cpu.p NEGATIVE) = cond := Option.some.inj hc
      exact branch_step_tail m _ h (exec_op_30 m (by omega) e1)
    · rw [if_neg e1] at hc
      by_cases e2 : m.cpu.mem m.cpu.pc = 0x50
      · rw [if_pos e2] at hc
        obtain rfl : (!(getFlag m.cpu.p OVERFLOW)) = cond := Option.some.inj hc
        exact branch_step_tail m _ h (exec_op_50 m (by omega) e2)
      · rw [if_neg e2] at hc
        by_cases e3 : m.cpu.mem m.cpu.pc = 0x70
        · rw [if_pos e3] at hc
          obtain rfl : (getFlag m.cpu.p OVERFLOW) = cond := Option.some.inj hc
          exact branch_step_tail m _ h (exec_op_70 m (by omega) e3)
        · rw [if_neg e3] at hc
          by_cases e4 : m.cpu.mem m.cpu.pc = 0x90
          · rw [if_pos e4] at hc
            obtain rfl : (!(getFlag m.cpu.p CARRY)) = cond := Option.some.inj hc
            exact branch_step_tail m _ h (exec_op_90 m (by omega) e4)
          · rw [if_neg e4] at hc
            by_cases e5 : m.cpu.mem m.cpu.pc = 0xB0
            · rw [if_pos e5] at hc
              obtain rfl : (getFlag m.cpu.p CARRY) = cond := Option.some.inj hc
              exact branch_step_tail m _ h (exec_op_B0 m (by omega) e5)
            · rw [if_neg e5] at hc
              by_cases e6 : m.cpu.mem m.cpu.pc = 0xD0
              · rw [if_pos e6] at hc
                obtain rfl : (!(getFlag m.cpu.p ZERO)) = cond := Option.some.inj hc
                exact branch_step_tail m _ h (exec_op_D0 m (by omega) e6)
              · rw [if_neg e6] at hc
                by_cases e7 : m.cpu.mem m.cpu.pc = 0xF0
                · rw [if_pos e7] at hc
                  obtain rfl : (getFlag m.cpu.p ZERO) = cond := Option.some.inj hc
                  exact branch_step_tail m _ h (exec_op_F0 m (by omega) e7)
                · rw [if_neg e7] at hc
                  exact Option.noConfusion hc

/-- `x & 0xFFFF` is reduction modulo 65536. -/
theorem land_ffff (x : Nat) : x &&& 0xFFFF = x % 65536 := by
  have h := Nat.and_pow_two_sub_one_eq_mod x 16
  norm_num at h
  exact h

/-- The negative-flag test `(x & 0x8000) != 0` is the bit-15 test. -/
theorem land_8000_eq (x : Nat) : (x &&& 0x8000 != 0) = x.testBit 15 := by
  rw [show (0x8000 : Nat) = 2 ^ 15 by norm_num, Nat.and_two_pow]
  cases h : x.testBit 15 <;> simp [h]

/-- The zero-flag test `(x & 0xFFFF) == 0` for a 16-bit value. -/
theorem land_ffff_beq (x : Nat) (h : x < 65536) : (x &&& 0xFFFF == 0) = decide (x = 0) := by
  rw [land_ffff, Nat.mod_eq_of_lt h]
  cases hx : decide (x = 0) <;> simp_all

/-- C9: a console-input step (opcode 0x05) pops the front of the input
queue (0 when it is empty), masks the value to 16 bits into A, recomputes
Zero/Negative from A, charges 2 cycles, and touches nothing else (PC moves
only past the opcode). -/
theorem C9_console_input (m : Machine)
    (h : m.cpu.pc < 65536) (hop : m.cpu.mem m.cpu.pc = 0x05) :
    ∃ m2, executeInstructions m = (m2, .ok true) ∧
      m2.cpu.a = pyMask16 (m.inputs.headD 0) ∧
      m2.inputs = m.inputs.tail ∧
      m2.outputs = m.outputs ∧
      m2.cpu.pc = m.cpu.pc + 1 ∧
      m2.cpu.cycles = m.cpu.cycles + 2 ∧
      getFlag m2.cpu.p ZERO = decide (m2.cpu.a = 0) ∧
      getFlag m2.cpu.p NEGATIVE = m2.cpu.a.testBit 15 := by
  rw [exec_op_05 m h hop]
  refine ⟨_, rfl, ?_, ?_, ?_, ?_, ?_, ?_, ?_⟩ <;>
    unfold from_console_to_A update_zn_flags <;>
    dsimp only <;>
    cases m.inputs <;>
    simp [testBit_setFlag, land_ffff_beq _ (pyMask16_lt _), land_8000_eq]

/-- C5: add-with-carry sets Overflow by the XOR-of-sign-bits test against
the 16-bit result (set exactly when the operands agree in sign and the
result differs), sets Carry exactly when the raw unmasked sum exceeds
0xFFFF, and on A = 0x7FFF, operand 0x0001, Carry initially clear yields
A = 0x8000 with Overflow true, Negative true, Zero false. -/
theorem C5_adc_overflow_carry :
    (∀ (c : CPU6502) (v : Nat),
      (ADC c v).a = (c.a + v + (if getFlag c.p CARRY then 1 else 0)) &&& 0xFFFF ∧
      getFlag (ADC c v).p CARRY
        = decide (c.a + v + (if getFlag c.p CARRY then 1 else 0) > 0xFFFF) ∧
      getFlag (ADC c v).p OVERFLOW
        = ((c.a.testBit 15 == v.testBit 15) &&
           !((((c.a + v + (if getFlag c.p CARRY then 1 else 0)) &&& 0xFFFF).testBit 15) == c.a.testBit 15))) ∧
    (getFlag ({ initCPU with a := 0x7FFF } : CPU6502).p CARRY = false ∧
     (ADC { initCPU with a := 0x7FFF } 0x0001).a = 0x8000 ∧
     getFlag (ADC { initCPU with a := 0x7FFF } 0x0001).p OVERFLOW = true ∧
     getFlag (ADC { initCPU with a := 0x7FFF } 0x0001).p NEGATIVE = true ∧
     getFlag (ADC { initCPU with a := 0x7FFF } 0x0001).p ZERO = false) := by
  constructor
  · intro c v
    have hv : ∀ r : Nat, ((c.a ^^^ r) &&& (v ^^^ r) &&& 0x8000 != 0)
        = ((c.a.testBit 15 == v.testBit 15) && !(r.testBit 15 == c.a.testBit 15)) := by
      intro r
      rw [land_8000_eq, Nat.testBit_land, Nat.testBit_xor, Nat.testBit_xor]
      cases c.a.testBit 15 <;> cases v.testBit 15 <;> cases r.testBit 15 <;> rfl
    refine ⟨rfl, ?_, ?_⟩
    · simp only [ADC, update_zn_flags, getFlag_CARRY, testBit_setFlag,
        NEGATIVE_testBit, ZERO_testBit, CARRY_testBit, OVERFLOW_testBit]
      norm_num
    · simp only [ADC, update_zn_flags, getFlag_OVERFLOW, testBit_setFlag,
        NEGATIVE_testBit, ZERO_testBit, CARRY_testBit, OVERFLOW_testBit]
      norm_num
      rw [hv]
      simp [Nat.testBit_land, (by decide : Nat.testBit 65535 15 = true)]
  · refine ⟨by decide, by decide, by decide, by decide, by decide⟩

/-- The PC stays in range over one successful step that starts low enough:
masking happens only on a taken branch (and the jump loads a 16-bit word),
every other opcode advances PC by plain unmasked increments of at most 3. -/
theorem step_pc_lt (m : Machine) (m2 : Machine) (cont : Bool)
    (hcells : ∀ a2, m.cpu.mem a2 < 256)
    (hpc : m.cpu.pc + 3 < 65536)
    (hexec : executeInstructions m = (m2, .ok cont)) :
    m2.cpu.pc < 65536 := by
  obtain rfl : m2 = (executeInstructions m).1 := by rw [hexec]
  by_cases hk : dispatchedOpcodes.contains (m.cpu.mem m.cpu.pc) = true
  case neg =>
    rw [executeInstructions_unknown m (by omega) (by simpa using hk)] at hexec
    simp at hexec
  case pos =>
    have hk2 : m.cpu.mem m.cpu.pc ∈ dispatchedOpcodes := by simpa using hk
    simp only [dispatchedOpcodes, List.mem_cons, List.not_mem_nil, or_false] at hk2
    rcases hk2 with h|h|h|h|h|h|h|h|h|h|h|h|h|h|h|h|h|h|h|h|h|h|h|h|h|h|h|h|h|h|h|h|h
    · rw [exec_op_00 m (by omega) h]
      try dsimp only
      omega
    · rw [exec_op_01 m (by omega) h]
      unfold liftCPU
      try dsimp only
      rw [A_to_store_pc]
      try dsimp only
      omega
    · rw [exec_op_02 m (by omega) h]
      unfold liftCPU
      try dsimp only
      rw [from_store_to_A_pc]
      try dsimp only
      omega
    · rw [exec_op_03 m (by omega) h]
      unfold liftCPU
      try dsimp only
      rw [X_to_store_pc]
      try dsimp only
      omega
    · rw [exec_op_04 m (by omega) h]
      unfold liftCPU
      try dsimp only
      rw [from_store_to_X_pc]
      try dsimp only
      omega
    · rw [exec_op_05 m (by omega) h]
      unfold from_console_to_A update_zn_flags
      try dsimp only
      omega
    · rw [exec_op_06 m (by omega) h]
      try dsimp only
      rw [Output_to_console_pc]
      try dsimp only
      omega
    · rw [exec_op_07 m (by omega) h]
      unfold liftCPU
      try dsimp only
      rw [MUL_pc]
      try dsimp only
      omega
    · rw [exec_op_08 m (by omega) h]
      simp only [XTA, update_zn_flags]
      try dsimp only
      omega
    · rw [exec_op_09 m (by omega) h]
      simp only [ORA, update_zn_flags]
      try dsimp only
      omega
    · rw [exec_op_10 m (by omega) h]
      unfold liftCPU
      try dsimp only
      exact branch_pc_lt _ _ (by dsimp only; omega)
    · rw [exec_op_14 m (by omega) h]
      unfold liftCPU
      try dsimp only
      rw [MULM_pc]
      try dsimp only
      omega
    · rw [exec_op_18 m (by omega) h]
      simp only [CLC, update_zn_flags]
      try dsimp only
      omega
    · rw [exec_op_29 m (by omega) h]
      simp only [AND, update_zn_flags]
      try dsimp only
      omega
    · rw [exec_op_30 m (by omega) h]
      unfold liftCPU
      try dsimp only
      exact branch_pc_lt _ _ (by dsimp only; omega)
    · rw [exec_op_49 m (by omega) h]
      simp only [EOR, update_zn_flags]
      try dsimp only
      omega
    · rw [exec_op_4C m (by omega) h]
      try dsimp only
      have hb1 : m.cpu.mem (m.cpu.pc + 2) <<< 8 < 2 ^ 16 := by
        rw [Nat.shiftLeft_eq]
        have := hcells (m.cpu.pc + 2)
        norm_num
        omega
      have hb2 : m.cpu.mem (m.cpu.pc + 1) < 2 ^ 16 := by
        have := hcells (m.cpu.pc + 1)
        norm_num
        omega
      have hor := Nat.or_lt_two_pow hb1 hb2
      norm_num at hor
      exact hor
    · rw [exec_op_50 m (by omega) h]
      unfold liftCPU
      try dsimp only
      exact branch_pc_lt _ _ (by dsimp only; omega)
    · rw [exec_op_69 m (by omega) h]
      simp only [ADC, update_zn_flags]
      try dsimp only
      omega
    · rw [exec_op_70 m (by omega) h]
      unfold liftCPU
      try dsimp only
      exact branch_pc_lt _ _ (by dsimp only; omega)
    · rw [exec_op_90 m (by omega) h]
      unfold liftCPU
      try dsimp only
      exact branch_pc_lt _ _ (by dsimp only; omega)
    · rw [exec_op_A0 m (by omega) h]
      simp only [LDY, update_zn_flags]
      try dsimp only
      omega
    · rw [exec_op_A2 m (by omega) h]
      simp only [LDX, update_zn_flags]
      try dsimp only
      omega
    · rw [exec_op_A9 m (by omega) h]
      simp only [LDA, update_zn_flags]
      try dsimp only
      omega
    · rw [exec_op_AA m (by omega) h]
      simp only [TAX, update_zn_flags]
      try dsimp only
      omega
    · rw [exec_op_B0 m (by omega) h]
      unfold liftCPU
      try dsimp only
      exact branch_pc_lt _ _ (by dsimp only; omega)
    · rw [exec_op_C9 m (by omega) h]
      simp only [CMP, update_zn_flags]
      try dsimp only
      omega
    · rw [exec_op_CD m (by omega) h]
      unfold liftCPU
      try dsimp only
      rw [CMPC_pc]
      try dsimp only
      omega
    · rw [exec_op_D0 m (by omega) h]
      unfold liftCPU
      try dsimp only
      exact branch_pc_lt _ _ (by dsimp only; omega)
    · rw [exec_op_E0 m (by omega) h]
      simp only [CPX, update_zn_flags]
      try dsimp only
      omega
    · rw [exec_op_E9 m (by omega) h]
      simp only [SBC, update_zn_flags]
      try dsimp only
      omega
    · rw [exec_op_EA m (by omega) h]
      simp only [NOP, update_zn_flags]
      try dsimp only
      omega
    · rw [exec_op_F0 m (by omega) h]
      unfold liftCPU
      try dsimp only
      exact branch_pc_lt _ _ (by dsimp only; omega)

/-- C1 fails as stated: executing the NOP at address 0xFFFF succeeds and
leaves PC equal to 65536 — the fetch increment is not reduced modulo
65536, so PC is not always strictly less than 65536 after a step. -/
theorem C1_counterexample :
    (executeInstructions nopAtTop).2 = .ok true ∧
    (executeInstructions nopAtTop).1.cpu.pc = 65536 := ⟨rfl, rfl⟩

/-- C1 (amended): PC is reduced modulo 65536 when a taken conditional
branch assigns it (so it lands below 65536), and after any successful step
that starts at PC + 3 < 65536 on byte-valued memory the PC is again below
65536; opcode/operand fetches themselves advance PC without masking. -/
theorem C1_pc_wrap :
    (∀ (c : CPU6502), c.pc < 65536 → (branch c true).1.pc < 65536) ∧
    (∀ (m m2 : Machine) (cont : Bool), (∀ a2, m.cpu.mem a2 < 256) →
      m.cpu.pc + 3 < 65536 → executeInstructions m = (m2, .ok cont) →
      m2.cpu.pc < 65536) := by
  constructor
  · intro c h
    rw [branch_result c true h]
    dsimp only
    rw [if_pos rfl]
    exact pyMask16_lt _
  · intro m m2 cont hcells hpc hexec
    exact step_pc_lt m m2 cont hcells hpc hexec

/-- Witness for `C1_pc_wrap` at concrete inputs. -/
theorem C1_pc_wrap_witness :
    (branch offsetDemo true).1.pc < 65536 ∧
    (executeInstructions nopAtZero).1.cpu.pc < 65536 := by
  constructor
  · exact C1_pc_wrap.1 offsetDemo (by norm_num [offsetDemo, initCPU])
  · refine C1_pc_wrap.2 nopAtZero (executeInstructions nopAtZero).1 true ?_ ?_ ?_
    · intro a2
      by_cases h : a2 = 0 <;> simp [nopAtZero, initCPU, h]
    · norm_num [nopAtZero, initCPU]
    · rfl

/-- Witness for `C6_conditional_branch`: `BNE 5` from address 0 with Zero
clear is taken, landing at PC = 7 with 3 cycles. -/
theorem C6_conditional_branch_witness :
    ∃ m2, executeInstructions bneDemo = (m2, .ok true) ∧
      m2.cpu.pc = (if true then
          pyMask16 ((bneDemo.cpu.pc : Int) + 2 + byteToSigned (bneDemo.cpu.mem (bneDemo.cpu.pc + 1)))
        else bneDemo.cpu.pc + 2) ∧
      m2.cpu.cycles = bneDemo.cpu.cycles + (if true then 3 else 2) :=
  C6_conditional_branch bneDemo true (by norm_num [bneDemo, initCPU]) (by decide)

/-- Witness for `C9_console_input`: the queue [7, 9] feeds 7 into A. -/
theorem C9_console_input_witness :
    ∃ m2, executeInstructions ctaDemo = (m2, .ok true) ∧
      m2.cpu.a = pyMask16 (ctaDemo.inputs.headD 0) ∧
      m2.inputs = ctaDemo.inputs.tail ∧
      m2.outputs = ctaDemo.outputs ∧
      m2.cpu.pc = ctaDemo.cpu.pc + 1 ∧
      m2.cpu.cycles = ctaDemo.cpu.cycles + 2 ∧
      getFlag m2.cpu.p ZERO = decide (m2.cpu.a = 0) ∧
      getFlag m2.cpu.p NEGATIVE = m2.cpu.a.testBit 15 :=
  C9_console_input ctaDemo (by norm_num [ctaDemo, initCPU]) (by decide)

/-- C3: when the step loop reaches a state whose next opcode byte is not in
the dispatch map, the run returns normally: the step's trace entry is an
execution-error record carrying the `Unknown opcode` description, `halted`
stays false, and the error is not treated as a halt. -/
theorem C3_unknown_opcode_trace (m : Machine) (occ : List Nat)
    (maxSteps stepIdx r : Nat) (trace : List TraceEntry)
    (h : m.cpu.pc < 65536)
    (hop : dispatchedOpcodes.contains (m.cpu.mem m.cpu.pc) = false) :
    runLoop maxSteps m occ stepIdx (r + 1) trace =
      .ok ⟨trace ++ [TraceEntry.err stepIdx (m.cpu.mem m.cpu.pc) (snapshot m.cpu)
             ("Unknown opcode " ++ toHex2 (m.cpu.mem m.cpu.pc)) (snapOcc occ m.cpu.mem)],
           false, some ("Unknown opcode " ++ toHex2 (m.cpu.mem m.cpu.pc)),
           { m with cpu := { m.cpu with pc := m.cpu.pc + 1 } }⟩ := by
  have hne : ∀ k : Nat, dispatchedOpcodes.contains k = true → ¬ (m.cpu.mem m.cpu.pc = k) := by
    intro k hk heq
    rw [heq] at hop
    rw [hop] at hk
    exact Bool.noConfusion hk
  unfold runLoop
  rw [readMem_ok m.cpu.mem m.cpu.pc h]
  dsimp only
  rw [if_neg (show ¬ (m.cpu.mem m.cpu.pc = 1 ∨ m.cpu.mem m.cpu.pc = 3 ∨ m.cpu.mem m.cpu.pc = 20) by
    push_neg
    exact ⟨hne 1 (by decide), hne 3 (by decide), hne 20 (by decide)⟩)]
  rw [executeInstructions_unknown m h hop]

/-- Witness for `C3_unknown_opcode_trace`: running the one-byte program
[0xFF] (raw literal FF) errors on step 1 with `Unknown opcode FF` and
`halted = false`. -/
theorem C3_unknown_opcode_trace_witness :
    runLoop 1000 ffMach [] 1 (999 + 1) [] =
      .ok ⟨[] ++ [TraceEntry.err 1 (ffMach.cpu.mem ffMach.cpu.pc) (snapshot ffMach.cpu)
             ("Unknown opcode " ++ toHex2 (ffMach.cpu.mem ffMach.cpu.pc)) (snapOcc [] ffMach.cpu.mem)],
           false, some ("Unknown opcode " ++ toHex2 (ffMach.cpu.mem ffMach.cpu.pc)),
           { ffMach with cpu := { ffMach.cpu with pc := ffMach.cpu.pc + 1 } }⟩ :=
  C3_unknown_opcode_trace ffMach [] 1000 1 999 [] (by decide) (by decide)

/-- Loading in-bounds all-zero program bytes into zeroed memory succeeds
and leaves every cell 0. -/
theorem loadList_zero (n : Nat) (mem : Nat → Nat) (s : Nat) (hm : ∀ i, mem i = 0)
    (hs : s + n ≤ 65536) :
    ∃ m2, loadList mem (List.replicate n 0) s = .ok m2 ∧ ∀ j, m2 j = 0 := by
  induction n generalizing mem s with
  | zero => exact ⟨mem, rfl, hm⟩
  | succ k ih =>
    rw [List.replicate_succ]
    unfold loadList
    rw [show writeMem mem s (0 &&& 0xFF) = .ok (fun i => if i = s then 0 &&& 0xFF else mem i)
      from by unfold writeMem; rw [if_pos (by omega)]]
    dsimp only
    exact ih _ (s + 1) (fun i => by by_cases hi : i = s <;> simp [hi, hm i]) (by omega)

/-- Loading a byte list that runs past the end of the 65536-cell memory
raises the list-assignment `IndexError`. -/
theorem loadList_overflow (bytes : List Nat) :
    ∀ (mem : Nat → Nat) (s : Nat), s ≤ 65536 → 65536 < s + bytes.length →
      loadList mem bytes s = .error "list assignment index out of range" := by
  induction bytes with
  | nil =>
    intro mem s hs hlen
    simp only [List.length_nil] at hlen
    omega
  | cons b rest ih =>
    intro mem s hs hlen
    unfold loadList
    by_cases hcase : s < 65536
    · rw [show writeMem mem s (b &&& 0xFF) = .ok (fun i => if i = s then b &&& 0xFF else mem i)
        from by unfold writeMem; rw [if_pos hcase]]
      dsimp only
      refine ih _ (s + 1) (by omega) ?_
      simp only [List.length_cons] at hlen
      omega
    · rw [show writeMem mem s (b &&& 0xFF) = .error "list assignment index out of range"
        from by unfold writeMem; rw [if_neg hcase]]

/-- Assembling n halt statements yields n zero bytes. -/
theorem assemble_brk (n : Nat) :
    assembleStmts (List.replicate n (Stmt.instruction "BRK" none)) = .ok (List.replicate n 0) := by
  unfold assembleStmts
  have h2 : ∀ (labels : String → Option Nat) (addr k : Nat),
      pass2 labels (List.replicate k (Stmt.instruction "BRK" none)) addr = .ok (List.replicate k 0) := by
    intro labels addr k
    induction k generalizing addr with
    | zero => rfl
    | succ j ih =>
      rw [List.replicate_succ]
      unfold pass2
      rw [show encodeStmt labels addr (Stmt.instruction "BRK" none) = .ok ([0], addr + 1) from rfl]
      dsimp only
      rw [ih (addr + 1)]
      simp [List.replicate_succ]
  exact h2 _ 0 n

/-- C4: every program consisting solely of the halt opcode runs to
`halted = true` in exactly one trace step with no side effects (no tracked
memory writes, no outputs), and the final state keeps all the initial
register/flag defaults (A = X = Y = 0, SP = 0xFD, only status bit 5 set,
cycle count 0) — opcode 0x00 changes nothing but the fetch's PC advance. -/
theorem C4_halt_program (n maxSteps : Nat) (inputs : List Int)
    (hn : n ≤ 65536) (hms : 1 ≤ maxSteps) :
    run_statements (List.replicate n (Stmt.instruction "BRK" none)) maxSteps inputs =
      .ok ⟨List.replicate n 0, [TraceEntry.ok 1 0 initSnap haltSnap true []],
           true, none, [], haltSnap⟩ := by
  obtain ⟨k, rfl⟩ : ∃ k, maxSteps = k + 1 := ⟨maxSteps - 1, by omega⟩
  unfold run_statements
  rw [assemble_brk]
  dsimp only
  unfold run_body
  obtain ⟨m2, hload, hm2⟩ := loadList_zero n initCPU.mem 0 (fun _ => rfl) (by omega)
  rw [hload]
  dsimp only
  unfold runLoop
  rw [readMem_ok _ 0 (by norm_num)]
  dsimp only
  rw [hm2 0]
  rw [if_neg (by norm_num)]
  have he := exec_op_00
    ({ cpu := { initCPU with mem := m2, pc := 0 },
       inputs := inputs, outputs := [] } : Machine)
    (by norm_num) (by dsimp only; exact hm2 0)
  rw [he]
  dsimp only
  rw [if_neg (show ¬(false = true) by simp)]
  dsimp only
  simp [snapshot, initCPU, initSnap, haltSnap, getFlag, CARRY, ZERO, IRQ, DECIMAL,
    BRK, OVERFLOW, NEGATIVE, snapOcc, sortNats]
  all_goals decide

/-- A halt-only program longer than the 65536-cell memory crashes the load
loop with the list-assignment `IndexError` before any step runs. -/
theorem run_brk_overflow (n maxSteps : Nat) (inputs : List Int) (hn : 65536 < n) :
    run_statements (List.replicate n (Stmt.instruction "BRK" none)) maxSteps inputs
      = .error "list assignment index out of range" := by
  unfold run_statements
  rw [assemble_brk]
  dsimp only
  unfold run_body
  rw [loadList_overflow (List.replicate n 0) initCPU.mem 0 (by norm_num)
    (by rw [List.length_replicate]; omega)]

/-- C4 fails as stated for halt-only programs longer than the 65536-cell
memory: on 65537 halt statements the load loop
`cpu.memory[start + idx] = byte & 0xFF` raises an uncaught `IndexError`,
so `run` does not return a halted result at all. -/
theorem C4_counterexample :
    run_statements (List.replicate 65537 (Stmt.instruction "BRK" none)) 1000 []
      = .error "list assignment index out of range" :=
  run_brk_overflow 65537 1000 [] (by norm_num)

/-- Witness for `C4_halt_program`: the one-statement program `BRK`. -/
theorem C4_halt_program_witness :
    run_statements (List.replicate 1 (Stmt.instruction "BRK" none)) 1000 [] =
      .ok ⟨List.replicate 1 0, [TraceEntry.ok 1 0 initSnap haltSnap true []],
           true, none, [], haltSnap⟩ :=
  C4_halt_program 1 1000 [] (by norm_num) (by norm_num)

/-- Pass 2 ignores label statements: filtering them out emits the same
bytes. -/
theorem pass2_filter (L : String → Option Nat) :
    ∀ (sts : List Stmt) (addr : Nat),
      pass2 L sts addr = pass2 L (sts.filter fun st => !isLabelStmt st) addr := by
  intro sts
  induction sts with
  | nil => intro addr; rfl
  | cons hd tl ih =>
    intro addr
    cases hd with
    | label v =>
      rw [show (Stmt.label v :: tl).filter (fun st => !isLabelStmt st)
            = tl.filter (fun st => !isLabelStmt st) by simp [List.filter_cons, isLabelStmt]]
      rw [← ih addr]
      conv_lhs => rw [pass2]
      rw [show encodeStmt L addr (Stmt.label v) = .ok ([], addr) from rfl]
      dsimp only
      cases h : pass2 L tl addr <;> simp [h]
    | instruction op arg =>
      rw [show (Stmt.instruction op arg :: tl).filter (fun st => !isLabelStmt st)
            = Stmt.instruction op arg :: tl.filter (fun st => !isLabelStmt st) by
          simp [List.filter_cons, isLabelStmt]]
      conv_lhs => rw [pass2]
      conv_rhs => rw [pass2]
      cases henc : encodeStmt L addr (Stmt.instruction op arg) with
      | error e => rfl
      | ok br =>
        dsimp only
        rw [ih br.2]
    | byte v =>
      rw [show (Stmt.byte v :: tl).filter (fun st => !isLabelStmt st)
            = Stmt.byte v :: tl.filter (fun st => !isLabelStmt st) by
          simp [List.filter_cons, isLabelStmt]]
      conv_lhs => rw [pass2]
      conv_rhs => rw [pass2]
      cases henc : encodeStmt L addr (Stmt.byte v) with
      | error e => rfl
      | ok br =>
        dsimp only
        rw [ih br.2]

/-- C8: two statement lists with the same non-label statements whose pass-1
label tables resolve every name identically assemble to the same bytes —
the emitted bytes depend only on the instruction/raw-byte statements and
the resolved label-to-address mapping, not on where the labels are
declared. -/
theorem C8_label_order_independence (sts1 sts2 : List Stmt)
    (hstmts : sts1.filter (fun st => !isLabelStmt st) = sts2.filter (fun st => !isLabelStmt st))
    (hlabels : ∀ name, (pass1 sts1 emptyLabels 0).1 name = (pass1 sts2 emptyLabels 0).1 name) :
    assembleStmts sts1 = assembleStmts sts2 := by
  have hL : (pass1 sts1 emptyLabels 0).1 = (pass1 sts2 emptyLabels 0).1 := funext hlabels
  unfold assembleStmts
  rw [hL, pass2_filter _ sts1 0, pass2_filter _ sts2 0, hstmts]

/-- Witness for `C8_label_order_independence`: swapping two label
declarations that resolve to the same offsets. -/
theorem C8_label_order_independence_witness :
    assembleStmts [Stmt.label "A", Stmt.label "B", Stmt.byte "1"]
      = assembleStmts [Stmt.label "B", Stmt.label "A", Stmt.byte "1"] :=
  C8_label_order_independence _ _ (by decide)
    (fun name => by simp only [pass1, emptyLabels]; split_ifs <;> rfl)

/-- Pass 1 over an appended list runs the second part from the first
part's table and offset. -/
theorem pass1_append (xs : List Stmt) :
    ∀ (ys : List Stmt) (L : String → Option Nat) (a2 : Nat),
      pass1 (xs ++ ys) L a2 = pass1 ys (pass1 xs L a2).1 (pass1 xs L a2).2 := by
  induction xs with
  | nil => intro ys L a2; rfl
  | cons hd tl ih =>
    intro ys L a2
    cases hd with
    | label v => simpa [pass1] using ih ys _ a2
    | instruction op arg => simpa [pass1] using ih ys L (a2 + _instruction_size op)
    | byte v => simpa [pass1] using ih ys L (a2 + 1)

/-- Pass 1's running offset is the start offset plus the encoded size. -/
theorem pass1_addr (xs : List Stmt) :
    ∀ (L : String → Option Nat) (a2 : Nat), (pass1 xs L a2).2 = a2 + stmtsLen xs := by
  induction xs with
  | nil => intro L a2; simp [pass1, stmtsLen]
  | cons hd tl ih =>
    intro L a2
    cases hd with
    | label v => simp [pass1, stmtsLen, stmtSize, ih, List.map_cons]; try omega
    | instruction op arg => simp [pass1, stmtsLen, stmtSize, ih]; omega
    | byte v => simp [pass1, stmtsLen, stmtSize, ih]; omega

/-- Pass 1 over statements that never (re)declare `name` leaves `name`'s
binding unchanged. -/
theorem pass1_lookup_skip (name : String) (post : List Stmt)
    (hnd : definesLabel name post = false) :
    ∀ (L : String → Option Nat) (a2 : Nat), (pass1 post L a2).1 name = L name := by
  induction post with
  | nil => intro L a2; rfl
  | cons hd tl ih =>
    intro L a2
    cases hd with
    | label v =>
      have hpair : (v == name) = false ∧ definesLabel name tl = false := by
        have h2 : (v == name || definesLabel name tl) = false := hnd
        constructor
        · cases hb : (v == name)
          · rfl
          · rw [hb] at h2
            exact Bool.noConfusion h2
        · cases hb : definesLabel name tl
          · rfl
          · rw [hb, Bool.or_true] at h2
            exact Bool.noConfusion h2
      have hv : ¬ (v = name) := by
        intro h
        rw [h] at hpair
        simpa using hpair.1
      rw [show pass1 (Stmt.label v :: tl) L a2
            = pass1 tl (fun k => if k = v then some a2 else L k) a2 from rfl]
      rw [ih hpair.2]
      rw [if_neg (fun h => hv h.symm)]
    | instruction op arg =>
      have htl : definesLabel name tl = false := by
        simpa [definesLabel] using hnd
      rw [show pass1 (Stmt.instruction op arg :: tl) L a2
            = pass1 tl L (a2 + _instruction_size op) from rfl]
      exact ih htl L _
    | byte v =>
      have htl : definesLabel name tl = false := by
        simpa [definesLabel] using hnd
      rw [show pass1 (Stmt.byte v :: tl) L a2 = pass1 tl L (a2 + 1) from rfl]
      exact ih htl L _

/-- C10: a duplicate label definition is not an assembly error — pass 1
silently overwrites the earlier binding, so the table resolves the name to
the address of its last definition (and a program whose label is defined
twice assembles successfully, references resolving to the latest
address). -/
theorem C10_duplicate_labels :
    (∀ (pre post : List Stmt) (L : String),
      definesLabel L post = false →
      (pass1 (pre ++ Stmt.label L :: post) emptyLabels 0).1 L = some (stmtsLen pre)) ∧
    assembleStmts [Stmt.label "L", Stmt.byte "1", Stmt.label "L",
      Stmt.instruction "JMP" (some "L")] = .ok [1, 0x4C, 1, 0] := by
  constructor
  · intro pre post L hnd
    rw [pass1_append pre (Stmt.label L :: post) emptyLabels 0]
    rw [show pass1 (Stmt.label L :: post) (pass1 pre emptyLabels 0).1 (pass1 pre emptyLabels 0).2
          = pass1 post (fun k => if k = L then some (pass1 pre emptyLabels 0).2
              else (pass1 pre emptyLabels 0).1 k) (pass1 pre emptyLabels 0).2 from rfl]
    rw [pass1_lookup_skip L post hnd]
    simp [pass1_addr]
  · rfl

/-- Witness for `C10_duplicate_labels`: one earlier definition of "L",
redefined after a one-byte statement. -/
theorem C10_duplicate_labels_witness :
    (pass1 ([Stmt.byte "1"] ++ Stmt.label "L" :: []) emptyLabels 0).1 "L"
      = some (stmtsLen [Stmt.byte "1"]) :=
  C10_duplicate_labels.1 [Stmt.byte "1"] [] "L" (by decide)

/-- Closed form of pass 2's branch encoding for a label operand: the error
test and the emitted offset byte depend only on `target - (addr + 2)`
(`target` minus the address one past the operand byte), not on which
branch mnemonic is used. -/
theorem encode_branch_reduce (op a2 : String) (opc : Nat)
    (labels : String → Option Nat) (addr target : Nat)
    (hlk : OPCODES.lookup op = some opc)
    (hna : NO_ARG.contains op = false)
    (hbr : BRANCH_OPS.contains op = true)
    (hlab : labels a2 = some target) :
    encodeStmt labels addr (Stmt.instruction op (some a2)) =
      (if (target : Int) - ((addr : Int) + 2) < -128 ∨ 127 < (target : Int) - ((addr : Int) + 2) then
        .error ("Branch offset out of range for \x27" ++ op ++ " " ++ a2 ++ "\x27: "
          ++ toString ((target : Int) - ((addr : Int) + 2)))
      else .ok ([opc, pyMask8 ((target : Int) - ((addr : Int) + 2))], addr + 2)) := by
  rw [encodeStmt]
  rw [hlk]
  try dsimp only
  rw [hna]
  try dsimp only
  rw [hlab]
  try dsimp only
  rw [hbr]
  try dsimp only
  have heq : (target : Int) - (((addr + 1 : Nat) : Int) + 1) = (target : Int) - ((addr : Int) + 2) := by
    push_cast
    ring
  rw [heq]
  have haddr : addr + 1 + 1 = addr + 2 := by omega
  rw [haddr]
  rfl

/-- Each conditional-branch mnemonic is in the opcode table and takes an
operand. -/
theorem branch_op_facts (op : String) (hbr : BRANCH_OPS.contains op = true) :
    (∃ opc, OPCODES.lookup op = some opc) ∧ NO_ARG.contains op = false := by
  have hmem : op ∈ BRANCH_OPS := by simpa using hbr
  simp only [BRANCH_OPS, List.mem_cons, List.not_mem_nil, or_false] at hmem
  rcases hmem with rfl | rfl | rfl | rfl | rfl | rfl | rfl | rfl <;>
    exact ⟨⟨_, rfl⟩, rfl⟩

/-- C2 (amended): for every conditional branch mnemonic with a label
operand, assembly fails exactly when the computed offset
target - (address_of_operand_byte + 1) falls outside -128..127 (not
-127..127: -128 is accepted), and both the test and the emitted bytes
beyond the opcode are independent of which branch mnemonic is used. -/
theorem C2_branch_offset_range (op a2 : String) (labels : String → Option Nat)
    (addr target : Nat)
    (hbr : BRANCH_OPS.contains op = true)
    (hlab : labels a2 = some target) :
    (((target : Int) - ((addr : Int) + 2) < -128 ∨ 127 < (target : Int) - ((addr : Int) + 2)) →
      ∃ e, encodeStmt labels addr (Stmt.instruction op (some a2)) = .error e) ∧
    (-128 ≤ (target : Int) - ((addr : Int) + 2) → (target : Int) - ((addr : Int) + 2) ≤ 127 →
      encodeStmt labels addr (Stmt.instruction op (some a2)) =
        .ok ([(OPCODES.lookup op).getD 0, pyMask8 ((target : Int) - ((addr : Int) + 2))], addr + 2)) := by
  obtain ⟨⟨opc, hlk⟩, hna⟩ := branch_op_facts op hbr
  rw [encode_branch_reduce op a2 opc labels addr target hlk hna hbr hlab, hlk]
  constructor
  · intro hout
    rw [if_pos hout]
    exact ⟨_, rfl⟩
  · intro hlo hhi
    rw [if_neg (by omega)]
    rfl

/-- Witness for `C2_branch_offset_range`: `BNE L` at address 0 with L at 0
(offset -2, in range, emitted byte 0xFE). -/
theorem C2_branch_offset_range_witness :
    (((0 : Nat) : Int) - (((0 : Nat) : Int) + 2) < -128 ∨ 127 < ((0 : Nat) : Int) - (((0 : Nat) : Int) + 2) →
      ∃ e, encodeStmt (fun k => if k = "L" then some 0 else none) 0
        (Stmt.instruction "BNE" (some "L")) = .error e) ∧
    (-128 ≤ ((0 : Nat) : Int) - (((0 : Nat) : Int) + 2) → ((0 : Nat) : Int) - (((0 : Nat) : Int) + 2) ≤ 127 →
      encodeStmt (fun k => if k = "L" then some 0 else none) 0
        (Stmt.instruction "BNE" (some "L")) =
        .ok ([(OPCODES.lookup "BNE").getD 0,
          pyMask8 (((0 : Nat) : Int) - (((0 : Nat) : Int) + 2))], 0 + 2)) :=
  C2_branch_offset_range "BNE" "L" (fun k => if k = "L" then some 0 else none) 0 0
    (by decide) (by simp)

set_option maxRecDepth 8000 in
/-- C2 fails as stated: a backward branch whose computed offset is exactly
-128 (outside -127..127) assembles successfully rather than failing. -/
theorem C2_counterexample :
    ((0 : Int) - ((126 : Int) + 2) < -127) ∧
    assembleStmts (Stmt.label "L" :: List.replicate 126 (Stmt.byte "0")
        ++ [Stmt.instruction "BNE" (some "L")])
      = .ok (List.replicate 126 0 ++ [0xD0, 0x80]) := by
  constructor
  · norm_num
  · rfl

/-- If any statement of the list fails to encode (at every offset), pass 2
fails. -/
theorem pass2_error_of_mem (labels : String → Option Nat) (st : Stmt)
    (hfail : ∀ addr, ∃ e, encodeStmt labels addr st = .error e) :
    ∀ (sts : List Stmt), st ∈ sts → ∀ addr0, ∃ e, pass2 labels sts addr0 = .error e := by
  intro sts
  induction sts with
  | nil => intro hmem; cases hmem
  | cons hd tl ih =>
    intro hmem addr0
    rcases List.mem_cons.mp hmem with rfl | hmem2
    · obtain ⟨e, he⟩ := hfail addr0
      refine ⟨e, ?_⟩
      conv_lhs => rw [pass2]
      rw [he]
    · cases henc : encodeStmt labels addr0 hd with
      | error e =>
        refine ⟨e, ?_⟩
        conv_lhs => rw [pass2]
        rw [henc]
      | ok br =>
        obtain ⟨e, he⟩ := ih hmem2 br.2
        refine ⟨e, ?_⟩
        conv_lhs => rw [pass2]
        rw [henc]
        dsimp only
        rw [he]

/-- If any line of the source fails to parse, the whole parse fails. -/
theorem parseLines_error_of_mem (rawLine : String)
    (hfail : ∃ e, parseOneLine rawLine = .error e) :
    ∀ (ls : List String), rawLine ∈ ls → ∃ e, parseLines ls = .error e := by
  intro ls
  induction ls with
  | nil => intro hmem; cases hmem
  | cons hd tl ih =>
    intro hmem
    rcases List.mem_cons.mp hmem with rfl | hmem2
    · obtain ⟨e, he⟩ := hfail
      refine ⟨e, ?_⟩
      conv_lhs => rw [parseLines]
      rw [he]
    · cases hp : parseOneLine hd with
      | error e =>
        refine ⟨e, ?_⟩
        conv_lhs => rw [parseLines]
        rw [hp]
      | ok sts =>
        obtain ⟨e, he⟩ := ih hmem2
        refine ⟨e, ?_⟩
        conv_lhs => rw [parseLines]
        rw [hp]
        dsimp only
        rw [he]

/-- An operand-taking mnemonic with no argument fails to encode. -/
theorem encode_missing_arg (op : String) (hna : NO_ARG.contains op = false)
    (labels : String → Option Nat) (addr : Nat) :
    ∃ e, encodeStmt labels addr (Stmt.instruction op none) = .error e := by
  rw [encodeStmt]
  cases hlk : OPCODES.lookup op with
  | none => exact ⟨_, rfl⟩
  | some opc =>
    dsimp only
    rw [hna]
    exact ⟨_, rfl⟩

/-- A malformed hexadecimal raw literal fails to encode. -/
theorem encode_bad_literal (v : String) (hbad : pyIntHex v = none)
    (labels : String → Option Nat) (addr : Nat) :
    ∃ e, encodeStmt labels addr (Stmt.byte v) = .error e := by
  rw [encodeStmt]
  unfold _parse_number
  rw [hbad]
  exact ⟨_, rfl⟩

/-- A line carrying more than one argument token after its mnemonic (more
than two whitespace tokens) raises the `Too many tokens` parse error. -/
theorem parseOneLine_error_of_parts (rawLine : String)
    (h : 2 < (lineParts rawLine).length) :
    parseOneLine rawLine = .error ("Too many tokens in line: \x27" ++ rawLine ++ "\x27") := by
  unfold lineParts at h
  unfold parseOneLine
  dsimp only at h ⊢
  by_cases h1 : pyStrip (pyBefore '#' (pyBefore ';' rawLine)) = ""
  · exfalso
    rw [h1] at h
    rw [show (if ("" : String).toList.contains ':' = true
        then pyStrip (pySplit1 ':' "").2 else "") = "" from rfl] at h
    rw [show pySplitWs "" = [] from rfl] at h
    simp at h
  · rw [if_neg h1]
    by_cases h2 : (pyStrip (pyBefore '#' (pyBefore ';' rawLine))).toList.contains ':'
    · rw [if_pos h2] at h ⊢
      dsimp only
      by_cases h3 : pyStrip (pySplit1 ':' (pyStrip (pyBefore '#' (pyBefore ';' rawLine)))).2 = ""
      · exfalso
        rw [h3] at h
        rw [show pySplitWs "" = [] from rfl] at h
        simp at h
      · rw [if_neg h3]
        rw [if_pos h]
    · rw [if_neg h2] at h ⊢
      dsimp only
      rw [if_neg h1]
      rw [if_pos h]

/-- C7: each malformed-input category aborts translation with an error and
no bytes are produced (an `Except.error` result carries no partial
output): (a) more than one argument token on a line fails parsing; (b) a
missing required operand on an operand-taking mnemonic fails assembly; (c)
a branch offset out of range fails the statement's encoding; (d) a
malformed hexadecimal raw literal fails assembly; and (e) any statement
whose encoding fails aborts the whole assembly. -/
theorem C7_malformed_input_errors :
    (∀ (src rawLine : String), rawLine ∈ pySplitlines src →
      2 < (lineParts rawLine).length → ∃ e, assemble_source src = .error e) ∧
    (∀ (sts : List Stmt) (op : String), Stmt.instruction op none ∈ sts →
      NO_ARG.contains op = false → ∃ e, assembleStmts sts = .error e) ∧
    (∀ (labels : String → Option Nat) (addr target : Nat) (op a2 : String),
      BRANCH_OPS.contains op = true → labels a2 = some target →
      ((target : Int) - ((addr : Int) + 2) < -128 ∨ 127 < (target : Int) - ((addr : Int) + 2)) →
      ∃ e, encodeStmt labels addr (Stmt.instruction op (some a2)) = .error e) ∧
    (∀ (sts : List Stmt) (v : String), Stmt.byte v ∈ sts →
      pyIntHex v = none → ∃ e, assembleStmts sts = .error e) ∧
    (∀ (sts : List Stmt) (st : Stmt), st ∈ sts →
      (∀ addr, ∃ e, encodeStmt (pass1 sts emptyLabels 0).1 addr st = .error e) →
      ∃ e, assembleStmts sts = .error e) := by
  refine ⟨?_, ?_, ?_, ?_, ?_⟩
  · intro src rawLine hmem hlen
    obtain ⟨e, he⟩ := parseLines_error_of_mem rawLine
      ⟨_, parseOneLine_error_of_parts rawLine hlen⟩ (pySplitlines src) hmem
    refine ⟨e, ?_⟩
    unfold assemble_source _parse_source
    rw [he]
  · intro sts op hmem hna
    obtain ⟨e, he⟩ := pass2_error_of_mem (pass1 sts emptyLabels 0).1 _
      (fun addr => encode_missing_arg op hna (pass1 sts emptyLabels 0).1 addr) sts hmem 0
    refine ⟨e, ?_⟩
    unfold assembleStmts
    exact he
  · intro labels addr target op a2 hbr hlab hout
    obtain ⟨⟨opc, hlk⟩, hna⟩ := branch_op_facts op hbr
    rw [encode_branch_reduce op a2 opc labels addr target hlk hna hbr hlab]
    rw [if_pos hout]
    exact ⟨_, rfl⟩
  · intro sts v hmem hbad
    obtain ⟨e, he⟩ := pass2_error_of_mem (pass1 sts emptyLabels 0).1 _
      (fun addr => encode_bad_literal v hbad (pass1 sts emptyLabels 0).1 addr) sts hmem 0
    refine ⟨e, ?_⟩
    unfold assembleStmts
    exact he
  · intro sts st hmem hfail
    obtain ⟨e, he⟩ := pass2_error_of_mem (pass1 sts emptyLabels 0).1 st hfail sts hmem 0
    refine ⟨e, ?_⟩
    unfold assembleStmts
    exact he

/-- Witness for `C7_malformed_input_errors` on concrete malformed inputs:
a three-token line, a missing operand, an out-of-range branch, a malformed
raw literal, and the propagation case. -/
theorem C7_malformed_input_errors_witness :
    (∃ e, assemble_source "LDA 1 2" = .error e) ∧
    (∃ e, assembleStmts [Stmt.instruction "LDA" none] = .error e) ∧
    (∃ e, encodeStmt (fun k => if k = "L" then some 300 else none) 0
      (Stmt.instruction "BNE" (some "L")) = .error e) ∧
    (∃ e, assembleStmts [Stmt.byte "XYZ"] = .error e) ∧
    (∃ e, assembleStmts [Stmt.instruction "BNE" none] = .error e) := by
  refine ⟨?_, ?_, ?_, ?_, ?_⟩
  · exact C7_malformed_input_errors.1 "LDA 1 2" "LDA 1 2" (by decide) (by decide)
  · exact C7_malformed_input_errors.2.1 [Stmt.instruction "LDA" none] "LDA"
      (by decide) (by decide)
  · exact C7_malformed_input_errors.2.2.1 (fun k => if k = "L" then some 300 else none)
      0 300 "BNE" "L" (by decide) (by simp) (by norm_num)
  · exact C7_malformed_input_errors.2.2.2.1 [Stmt.byte "XYZ"] "XYZ" (by decide) (by decide)
  · exact C7_malformed_input_errors.2.2.2.2 [Stmt.instruction "BNE" none]
      (Stmt.instruction "BNE" none) (by decide)
      (fun addr => encode_missing_arg "BNE" (by decide) _ addr)
